/-
Verification of the `client_1c_timesheet` library (transport layer `api.py`
and object model `models.py`).

The Python code is embedded shallowly:

* Python `float` values are modelled by the exact rational number a binary64
  value denotes, carried by the executable fraction type `Q` below; the
  arithmetic the code performs (`hours*10`, `int(...)`, `n/10`) is modelled
  with correct rounding to 53 significant bits (round-to-nearest,
  ties-to-even), which is IEEE-754 binary64 semantics.  Overflow to infinity
  (magnitudes ≥ 2^1024) is not modelled; every value appearing in the
  statements below stays far under 2^60.
* Decoded JSON values are modelled by the inductive type `JVal`.  Python's
  `==` does not distinguish `int` from `float`, and neither does the model:
  a JSON number is carried as its rational value.
* Fallible Python code is modelled in `Except PyErr`; the constructors of
  `PyErr` name the Python exception classes raised by the source.  Exception
  message strings are elided: no claim inspects them.
-/
import Mathlib

set_option maxRecDepth 8000
set_option exponentiation.threshold 3000

namespace Client1C

/-! ## Exact rationals, executable on Nat/Int kernel arithmetic

`Q` is a plain numerator/denominator pair (denominator positive by
construction).  Values produced by `rnd` are canonical: the denominator is a
power of two sharing no factor 2 with the numerator. -/

structure Q where
  n : ℤ
  d : ℕ
  deriving DecidableEq

/-- The integer `z` as a `Q`. -/
def Q.ofInt (z : ℤ) : Q := ⟨z, 1⟩

/-- Exact product of two fractions (not reduced). -/
def Q.mul (a b : Q) : Q := ⟨a.n * b.n, a.d * b.d⟩

/-- Numeric equality of fractions (Python `==` on numbers). -/
def Q.eqb (a b : Q) : Bool := a.n * (b.d : ℤ) = b.n * (a.d : ℤ)

/-- Floor of a fraction (denominator positive). -/
def Q.floor (q : Q) : ℤ := Int.fdiv q.n (q.d : ℤ)

/-- Truncation toward zero: Python `int(x)` on a float. -/
def Q.trunc (q : Q) : ℤ :=
  if q.n < 0 then -(((-q.n).toNat / q.d : ℕ) : ℤ) else ((q.n.toNat / q.d : ℕ) : ℤ)

/-! ## IEEE-754 binary64 rounding -/

/-- Fuelled `⌊log₂ n⌋` (exact for `1 ≤ n < 2^(64·fuel)`); bits are stripped in
blocks so the recursion depth stays small enough for kernel evaluation. -/
def lg : ℕ → ℕ → ℕ
  | 0, _ => 0
  | f + 1, n =>
    if n ≤ 1 then 0
    else if 2 ^ 256 ≤ n then lg f (n / 2 ^ 256) + 256
    else if 2 ^ 64 ≤ n then lg f (n / 2 ^ 64) + 64
    else lg f (n / 2) + 1

/-- Fuelled 2-adic valuation of a positive natural (number of trailing zero
bits, exact for `n < 2^(64·fuel)`). -/
def v2 : ℕ → ℕ → ℕ
  | 0, _ => 0
  | f + 1, n =>
    if n = 0 then 0
    else if n % 2 ^ 64 = 0 then v2 f (n / 2 ^ 64) + 64
    else if n % 2 = 0 then v2 f (n / 2) + 1 else 0

/-- `2^z` as a fraction. -/
def pow2 (z : ℤ) : Q :=
  if 0 ≤ z then ⟨(2 ^ z.toNat : ℕ), 1⟩ else ⟨1, 2 ^ (-z).toNat⟩

/-- Round a fraction to the nearest integer, ties to even. -/
def roundHalfEven (q : Q) : ℤ :=
  let n := q.floor
  let r2 : ℤ := 2 * (q.n - n * q.d)   -- twice the fractional part, times `q.d`
  if r2 < (q.d : ℤ) then n
  else if (q.d : ℤ) < r2 then n + 1
  else if n % 2 = 0 then n else n + 1

/-- `⌊log₂ q⌋` for a positive fraction (exact for `2^(-1200) < q < 2^1200`,
which covers all of binary64). -/
def ratExp (q : Q) : ℤ :=
  if (q.d : ℤ) ≤ q.n then (lg 200 q.floor.toNat : ℤ)
  else (lg 200 ((q.mul (pow2 1200)).floor.toNat) : ℤ) - 1200

/-- The canonical fraction `m · 2^g` (for `m ≥ 0`). -/
def dyadic (m : ℤ) (g : ℤ) : Q :=
  if 0 ≤ g then ⟨m * (2 ^ g.toNat : ℕ), 1⟩
  else
    let t := min (v2 200 m.toNat) (-g).toNat
    ⟨m / (2 ^ t : ℕ), 2 ^ ((-g).toNat - t)⟩

/-- Round a positive fraction to the nearest binary64 value (53 significant
bits, subnormal below `2^(-1022)`, ties to even). -/
def rndPos (q : Q) : Q :=
  let e := ratExp q
  let g := max (e - 52) (-1074)
  dyadic (roundHalfEven (q.mul (pow2 (-g)))) g

/-- Round a fraction to the nearest binary64 value: the result of any Python
float operation whose exact value is `q`. -/
def rnd (q : Q) : Q :=
  if q.n = 0 then ⟨0, 1⟩
  else if q.n < 0 then
    let p := rndPos ⟨-q.n, q.d⟩
    ⟨-p.n, p.d⟩
  else rndPos q

/-! ## Decoded JSON values and Python dicts

`JVal` models a value decoded by Python's `json` module (plus Python `None`,
which doubles as the decoding of JSON `null`).  A Python dict is an
association list; the source only builds dicts with pairwise-distinct keys.
No function below recurses through `JVal`, so everything kernel-evaluates. -/

inductive JVal where
  | s (str : String)
  | num (q : Q)
  | b (bool : Bool)
  | null
  | arr (elems : List JVal)
  | obj (fields : List (String × JVal))

/-- Python dict: insertion-ordered association list. -/
abbrev PyDict := List (String × JVal)

/-- First value stored under `key` (Python `d[key]` when present). -/
def dlookup (d : PyDict) (key : String) : Option JVal :=
  match d with
  | [] => none
  | p :: rest => if p.1 = key then some p.2 else dlookup rest key

/-- `key in d.keys()`. -/
def hasKey (d : PyDict) (key : String) : Bool := (dlookup d key).isSome

/-- Python `d1 | d2`: left-to-right order, right operand wins on clashes. -/
def dmerge (d1 d2 : PyDict) : PyDict :=
  d1.map (fun p => match dlookup d2 p.1 with | some v => (p.1, v) | none => p)
    ++ d2.filter (fun p => !hasKey d1 p.1)

/-- Python truthiness of a decoded value. -/
def pyTruthy : JVal → Bool
  | .s str => !str.isEmpty
  | .num q => !(q.n = 0)
  | .b bool => bool
  | .null => false
  | .arr elems => !elems.isEmpty
  | .obj fields => !fields.isEmpty

/-- `{x: y for x, y in d.items() if y}` — the truthiness filter the model
classes apply on serialization. -/
def dropFalsy (d : PyDict) : PyDict := d.filter (fun p => pyTruthy p.2)

/-! ## Python exceptions -/

/-- `APIErrorResponse` (api.py): the decoded payload of a structured API
error — `code` and the human-readable `message` extracted from the
`odata.error` envelope. -/
structure APIErrorResponse where
  code : JVal
  message : JVal

/-- The exceptions the embedded code can raise.  `objectParse` is
`ObjectParseException` (models.py); `apiResponseParse` is
`APIResponseParseException`, `apiServer404` is `APIServer404` and
`apiServerException` is `APIServerException` (api.py, the latter two carry
the decoded `APIErrorResponse`); `keyError`, `attributeError`, `typeError`,
`valueError` and `nameError` are the Python builtins. -/
inductive PyErr where
  | objectParse
  | apiResponseParse
  | apiServer404 (error_response : APIErrorResponse)
  | apiServerException (error_response : APIErrorResponse)
  | keyError (key : String)
  | attributeError (attr : String)
  | typeError
  | valueError
  | nameError (name : String)

/-- Python `container[key]` for a string key: dict lookup (`KeyError` when
absent); strings, lists, numbers, bools and `None` all raise `TypeError`
when subscripted with a string. -/
def pySubscript (v : JVal) (key : String) : Except PyErr JVal :=
  match v with
  | .obj fields =>
    match dlookup fields key with
    | some x => .ok x
    | none => .error (.keyError key)
  | _ => .error .typeError

/-- Python `v.keys()`: the field list of a dict; any other value raises
`AttributeError` (no `keys` attribute). -/
def pyKeys (v : JVal) : Except PyErr PyDict :=
  match v with
  | .obj fields => .ok fields
  | _ => .error (.attributeError "keys")

/-- `needle in hay` for strings: substring containment. -/
def strContains (hay needle : String) : Bool :=
  hay.toList.tails.any (fun t => needle.toList.isPrefixOf t)

/-- Python `key in v` for a string `key`: key lookup in a dict, substring
test in a string, membership (by string equality) in a list; `TypeError`
for non-containers. -/
def pyContains (v : JVal) (key : String) : Except PyErr Bool :=
  match v with
  | .obj fields => .ok (hasKey fields key)
  | .s str => .ok (strContains str key)
  | .arr elems => .ok (elems.any (fun e => match e with | .s t => t = key | _ => false))
  | _ => .error .typeError

/-- Fuelled Python `==` on decoded values: numbers compare by value (`True`
and `False` compare as `1` and `0`), lists elementwise, dicts by key set and
per-key values.  The fuel bounds the nesting depth; `jvalEqPy` supplies more
than any decoded payload can nest. -/
def jeqF : ℕ → JVal → JVal → Bool
  | 0, _, _ => false
  | f + 1, v, w =>
    match v, w with
    | .s a, .s b2 => a = b2
    | .num a, .num b2 => a.eqb b2
    | .num a, .b bool => a.eqb (Q.ofInt (if bool then 1 else 0))
    | .b bool, .num a => (Q.ofInt (if bool then 1 else 0)).eqb a
    | .b x, .b y => x = y
    | .null, .null => true
    | .arr a, .arr b2 =>
      a.length = b2.length && (a.zip b2).all (fun p => jeqF f p.1 p.2)
    | .obj a, .obj b2 =>
      (a.all fun p => match dlookup b2 p.1 with
        | some w2 => jeqF f p.2 w2
        | none => false) &&
      (b2.all fun p => match dlookup a p.1 with
        | some w2 => jeqF f p.2 w2
        | none => false)
    | _, _ => false

/-- Python `==` on decoded values. -/
def jvalEqPy (v w : JVal) : Bool := jeqF 1000 v w

/-- Stand-in for Python `__hash__` on a decoded value: some definite function
of the value for hashable values, `TypeError` for lists and dicts.  (Claims
only use that the hash is a function of the value.) -/
def jvalHash : JVal → Except PyErr UInt64
  | .s str => .ok str.hash
  | .num q => .ok (q.n.toNat.toUInt64 + q.d.toUInt64 * 13)
  | .b bool => .ok (if bool then 1 else 0)
  | .null => .ok 271828
  | .arr _ => .error .typeError
  | .obj _ => .error .typeError

/-- Python `==` between a decoded value and an int literal
(`error_response.code == 404`). -/
def pyEqInt (v : JVal) (z : ℤ) : Bool :=
  match v with
  | .num q => q.eqb (Q.ofInt z)
  | .b bool => (if bool then (1 : ℤ) else 0) = z
  | _ => false

/-! ## api.py — `APIRawResponse` -/

/-- A response as received from the API server: the HTTP status code and the
decoded JSON body (`none` when the body text is not valid JSON, in which case
`response.json()` raises `JSONDecodeError`). -/
structure APIRawResponse where
  status_code : ℕ
  body : Option JVal

namespace APIRawResponse

/-- `APIRawResponse.parse_json`: the decoded body, or
`APIResponseParseException` when the text is not valid JSON. -/
def parse_json (r : APIRawResponse) : Except PyErr JVal :=
  match r.body with
  | some j => .ok j
  | none => .error .apiResponseParse

/-- `APIRawResponse.parse_json_clockify_error`: decode the body and extract
the `odata.error` envelope.  Mirrors the source control flow: the
`message`/`code` validation runs only under `if 'odata.error' in
parsed.keys()`, yet the final `return APIErrorResponse(...)` subscripts
`parsed['odata.error']` unconditionally — so a body without that key raises
the builtin `KeyError` there (were the subscript to succeed, the local `msg`
would be unbound, an `UnboundLocalError`, a subclass of `NameError`). -/
def parse_json_clockify_error (r : APIRawResponse) : Except PyErr APIErrorResponse := do
  let parsed ← parse_json r
  let fields ← pyKeys parsed
  let msgOpt : Option JVal ←
    if hasKey fields "odata.error" then do
      let oe := (dlookup fields "odata.error").getD .null
      let oeFields ← pyKeys oe
      let msg ←
        if hasKey oeFields "message" then do
          let m := (dlookup oeFields "message").getD .null
          let c ← pyContains m "value"
          if c then pySubscript m "value" else .error .apiResponseParse
        else .error .apiResponseParse
      if hasKey oeFields "code" then pure (some msg)
      else .error .apiResponseParse
    else pure none
  let oe ← pySubscript parsed "odata.error"
  let code ← pySubscript oe "code"
  match msgOpt with
  | some msg => pure ⟨code, msg⟩
  | none => .error (.nameError "msg")

/-- `APIRawResponse.parse`: on 200/201 decode the body and unwrap a `value`
field when one is present; otherwise decode the structured error and raise
`APIServer404` for code 404, `APIServerException` for any other code. -/
def parse (r : APIRawResponse) : Except PyErr JVal :=
  if r.status_code = 200 ∨ r.status_code = 201 then do
    let parsed ← parse_json r
    let fields ← pyKeys parsed        -- `'value' in self.parse_json(...).keys()`
    if hasKey fields "value" then pySubscript parsed "value"
    else parse_json r
  else do
    let error_response ← parse_json_clockify_error r
    if pyEqInt error_response.code 404 then .error (.apiServer404 error_response)
    else .error (.apiServerException error_response)

end APIRawResponse

/-! ## models.py — object model -/

namespace APIObject

/-- `APIObject.get_item`: `dict_in[key]` guarded by `try/except KeyError` —
a missing key raises `ObjectParseException` when `raise_error` and otherwise
falls off the end of the function, returning `None`.  Subscripting a
non-dict raises `TypeError`, which the `except KeyError` does not catch. -/
def get_item (dict_in : JVal) (key : String) (raise_error : Bool := true) :
    Except PyErr JVal :=
  match dict_in with
  | .obj fields =>
    match dlookup fields key with
    | some v => .ok v
    | none => if raise_error then .error .objectParse else .ok .null
  | _ => .error .typeError

end APIObject

/-- `APIObjectID`: an identified object.  `obj_id` is a decoded wire value
(a string id hash in practice). -/
structure APIObjectID where
  obj_id : JVal

namespace APIObjectID

/-- `APIObjectID.__eq__`: `if other:` — instances define neither `__bool__`
nor `__len__` and are always truthy, `None` is falsy — so comparison against
`None` returns `False` and otherwise the stored ids are compared with
Python `==`. -/
def eqPy (self : APIObjectID) (other : Option APIObjectID) : Bool :=
  match other with
  | some o => jvalEqPy self.obj_id o.obj_id
  | none => false

/-- `APIObjectID.__ne__`: `not self.__eq__(other)`. -/
def nePy (self : APIObjectID) (other : Option APIObjectID) : Bool :=
  !(eqPy self other)

/-- `APIObjectID.__hash__`: `self.obj_id.__hash__()`. -/
def hashPy (self : APIObjectID) : Except PyErr UInt64 :=
  jvalHash self.obj_id

/-- `APIObjectID.init_from_dict`. -/
def init_from_dict (dict_in : JVal) : Except PyErr APIObjectID := do
  let v ← APIObject.get_item dict_in "Ref_Key"
  pure ⟨v⟩

/-- `APIObjectID.to_dict`. -/
def to_dict (self : APIObjectID) : PyDict := [("Ref_Key", self.obj_id)]

end APIObjectID

/-- `NamedAPIObject`: id plus human-readable name. -/
structure NamedAPIObject extends APIObjectID where
  name : JVal

namespace NamedAPIObject

/-- `NamedAPIObject.init_from_dict`. -/
def init_from_dict (dict_in : JVal) : Except PyErr NamedAPIObject := do
  let i ← APIObject.get_item dict_in "Ref_Key"
  let n ← APIObject.get_item dict_in "Description"
  pure ⟨⟨i⟩, n⟩

/-- `NamedAPIObject.to_dict`: `super().to_dict() | {"Description": ...}`. -/
def to_dict (self : NamedAPIObject) : PyDict :=
  dmerge self.toAPIObjectID.to_dict [("Description", self.name)]

end NamedAPIObject

/-- `Organization` and `Person` add nothing to `NamedAPIObject`. -/
abbrev Organization := NamedAPIObject

/-- See `Organization`. -/
abbrev Person := NamedAPIObject

/-- `TimeGroup`: named object with letter and digit classification codes. -/
structure TimeGroup extends NamedAPIObject where
  letter : JVal
  digit : JVal

namespace TimeGroup

/-- `TimeGroup.init_from_dict`. -/
def init_from_dict (dict_in : JVal) : Except PyErr TimeGroup := do
  let i ← APIObject.get_item dict_in "Ref_Key"
  let n ← APIObject.get_item dict_in "Description"
  let l ← APIObject.get_item dict_in "БуквенныйКод"
  let d ← APIObject.get_item dict_in "ЦифровойКод"
  pure ⟨⟨⟨i⟩, n⟩, l, d⟩

/-- `TimeGroup.to_dict`: merge the codes over the inherited dict, then drop
entries whose value is falsy. -/
def to_dict (self : TimeGroup) : PyDict :=
  dropFalsy (dmerge self.toNamedAPIObject.to_dict
    [("БуквенныйКод", self.letter), ("ЦифровойКод", self.digit)])

end TimeGroup

/-- `Employee`: named object with person and organization references. -/
structure Employee extends NamedAPIObject where
  person : APIObjectID
  organization : APIObjectID

namespace Employee

/-- `Employee.init_from_dict`. -/
def init_from_dict (dict_in : JVal) : Except PyErr Employee := do
  let i ← APIObject.get_item dict_in "Ref_Key"
  let n ← APIObject.get_item dict_in "Description"
  let p ← APIObject.get_item dict_in "ФизическоеЛицо_Key"
  let o ← APIObject.get_item dict_in "ГоловнаяОрганизация_Key"
  pure ⟨⟨⟨i⟩, n⟩, ⟨p⟩, ⟨o⟩⟩

/-- `Employee.to_dict`: merge the two reference keys over the inherited
dict, then drop entries whose value is falsy. -/
def to_dict (self : Employee) : PyDict :=
  dropFalsy (dmerge self.toNamedAPIObject.to_dict
    [("ФизическоеЛицо_Key", self.person.obj_id),
     ("ГоловнаяОрганизация_Key", self.organization.obj_id)])

end Employee

/-! ## models.py — timesheet encoding -/

/-- `int(hours*10)` as executed by `TimeSheetRecord.__init__` on a decoded
wire value: binary64 multiplication then truncation for a number; `True`
and `False` act as `1` and `0`; a string is repeated ten times by `*` and
then parsed by `int()` (`ValueError` unless it is all digits); anything
else raises `TypeError`. -/
def pyIntTimesTen (hours : JVal) : Except PyErr ℤ :=
  match hours with
  | .num q => .ok (rnd (q.mul (Q.ofInt 10))).trunc
  | .b bool => .ok (if bool then 10 else 0)
  | .s str =>
    if str.length ≠ 0 ∧ str.toList.all Char.isDigit then
      .ok (((List.replicate 10 str.toList).flatten.foldl
        (fun a c => a * 10 + (c.toNat - 48)) 0 : ℕ) : ℤ)
    else .error .valueError
  | _ => .error .typeError

/-- `TimeSheetRecord`: one day slot.  `_hours` is the internal
tenths-of-an-hour integer (`self._hours = int(hours*10)`). -/
structure TimeSheetRecord where
  day : ℕ
  _hours : ℤ
  time_group : APIObjectID
  territory : APIObjectID
  working_conditions : APIObjectID
  work_shift : JVal

namespace TimeSheetRecord

/-- `TimeSheetRecord.__init__` applied to a decoded `hours` value. -/
def init (day : ℕ) (hours : JVal)
    (time_group territory working_conditions : APIObjectID)
    (work_shift : JVal) : Except PyErr TimeSheetRecord := do
  let t ← pyIntTimesTen hours
  pure ⟨day, t, time_group, territory, working_conditions, work_shift⟩

/-- `TimeSheetRecord.get_hours`: `self._hours/10`, a binary64 division. -/
def get_hours (self : TimeSheetRecord) : Q := rnd ⟨self._hours, 10⟩

end TimeSheetRecord

/-- Decimal rendering of a natural number (the `{day}` part of the
f-string-built wire keys); fuelled structural recursion so that it
evaluates definitionally. -/
def natDigits : ℕ → ℕ → List Char
  | 0, _ => []
  | f + 1, n =>
    if n < 10 then [Char.ofNat (48 + n)]
    else natDigits f (n / 10) ++ [Char.ofNat (48 + n % 10)]

/-- `str(n)` for the day number embedded in wire keys. -/
def natToStr (n : ℕ) : String := String.mk (natDigits 20 n)

/-- `TimeSheetLine`: one per-employee line of 31 day slots. -/
structure TimeSheetLine extends APIObjectID where
  number : JVal
  employee : APIObjectID
  time_sheet_records : List TimeSheetRecord

namespace TimeSheetLine

/-- The day numbers `range(1, 32)`. -/
def days : List ℕ := (List.range 31).map (· + 1)

/-- `TimeSheetLine.init_from_dict`: the five day-keyed wire fields are
looked up for every day 1..31 (each lookup raising on a missing key) and
synthesized into one `TimeSheetRecord` per day. -/
def init_from_dict (dict_in : JVal) : Except PyErr TimeSheetLine := do
  let i ← APIObject.get_item dict_in "Ref_Key"
  let number ← APIObject.get_item dict_in "LineNumber"
  let emp ← APIObject.get_item dict_in "Сотрудник_Key"
  let records ← days.mapM (fun day => do
    let hv ← APIObject.get_item dict_in ("Часов" ++ natToStr day)
    let tg ← APIObject.get_item dict_in ("ВидВремени" ++ natToStr day ++ "_Key")
    let terr ← APIObject.get_item dict_in ("Территория" ++ natToStr day ++ "_Key")
    let usl ← APIObject.get_item dict_in ("УсловияТруда" ++ natToStr day ++ "_Key")
    let ws ← APIObject.get_item dict_in ("ПереходящаяЧастьСмены" ++ natToStr day)
    TimeSheetRecord.init day hv ⟨tg⟩ ⟨terr⟩ ⟨usl⟩ ws)
  pure ⟨⟨i⟩, number, ⟨emp⟩, records⟩

/-- `{tsr.day: tsr for tsr in self.time_sheet_records}`: Python dict
building — first-insertion order, a later record with the same day
overwrites the earlier value. -/
def tsrDictPy (records : List TimeSheetRecord) : List TimeSheetRecord :=
  records.foldl (fun acc r =>
    if acc.any (fun a => a.day = r.day) then
      acc.map (fun a => if a.day = r.day then r else a)
    else acc ++ [r]) []

/-- `TimeSheetLine.to_dict`: emit all 155 day-keyed fields (the hours value
through `get_hours`); the truthiness filter present on other entities is
commented out in the source, so nothing is dropped. -/
def to_dict (self : TimeSheetLine) : PyDict :=
  let tsr_dict := tsrDictPy self.time_sheet_records
  dmerge (dmerge (dmerge (dmerge (dmerge (dmerge
    self.toAPIObjectID.to_dict
    [("LineNumber", self.number), ("Сотрудник_Key", self.employee.obj_id)])
    (tsr_dict.map fun t => ("Часов" ++ natToStr t.day, JVal.num t.get_hours)))
    (tsr_dict.map fun t => ("ВидВремени" ++ natToStr t.day ++ "_Key", t.time_group.obj_id)))
    (tsr_dict.map fun t => ("Территория" ++ natToStr t.day ++ "_Key", t.territory.obj_id)))
    (tsr_dict.map fun t => ("УсловияТруда" ++ natToStr t.day ++ "_Key", t.working_conditions.obj_id)))
    (tsr_dict.map fun t => ("ПереходящаяЧастьСмены" ++ natToStr t.day, t.work_shift))

end TimeSheetLine

/-- `datetime.fromisoformat`-acceptable text, to the precision the source
exercises: `YYYY-MM-DD`, optionally followed by a `T` or space separator
and `HH:MM:SS`. -/
def isoOk (s : String) : Bool :=
  let cs := s.toList
  let dig := fun i => (cs.getD i ' ').isDigit
  let ch := fun i c => cs.getD i ' ' = c
  (dig 0 && dig 1 && dig 2 && dig 3 && ch 4 '-' && dig 5 && dig 6 &&
    ch 7 '-' && dig 8 && dig 9) &&
  (s.length = 10 ||
    (s.length = 19 && (ch 10 'T' || ch 10 ' ') && dig 11 && dig 12 &&
      ch 13 ':' && dig 14 && dig 15 && ch 16 ':' && dig 17 && dig 18))

/-- `datetime.fromisoformat` on a decoded value: the parsed datetime is
modelled by its ISO text.  A malformed string raises `ValueError`, a
non-string raises `TypeError`. -/
def pyFromIsoformat (v : JVal) : Except PyErr String :=
  match v with
  | .s str => if isoOk str then .ok str else .error .valueError
  | _ => .error .typeError

/-- `.date()` of a parsed datetime (modelled on the ISO text). -/
def pyDateOf (s : String) : String := s.take 10

/-- `TimeSheet`: the aggregate document.  The `date` fields are modelled by
their ISO text (`none` standing for Python `None`); `number` keeps the raw
decoded value. -/
structure TimeSheet extends APIObjectID where
  period : Option String
  organization : APIObjectID
  date_start : Option String
  date_end : Option String
  time_sheet_lines : List TimeSheetLine
  number : JVal
  datetime_stamp : Option String
  orgunit : Option APIObjectID

namespace TimeSheet

/-- `TimeSheet.__init__`: `self.number = number if number else None`
collapses a falsy number to `None`; `datetime_stamp` and `orgunit` pass
through unchanged because actual datetime objects and `APIObjectID`
instances are always truthy (and `None` maps to `None`). -/
def init (obj_id : JVal) (period : Option String) (organization : APIObjectID)
    (date_start date_end : Option String) (time_sheet_lines : List TimeSheetLine)
    (number : JVal := .null) (datetime_stamp : Option String := none)
    (orgunit : Option APIObjectID := none) : TimeSheet :=
  ⟨⟨obj_id⟩, period, organization, date_start, date_end, time_sheet_lines,
    if pyTruthy number then number else .null, datetime_stamp, orgunit⟩

/-- `TimeSheet.init_from_dict`: every field — including `Number`, `Date`
and `Подразделение_Key` — is fetched with the raising default of
`get_item`; the line list comes from a bare `dict_in['ДанныеОВремени']`
subscript.  Keyword arguments are evaluated in source order. -/
def init_from_dict (dict_in : JVal) : Except PyErr TimeSheet := do
  let i ← APIObject.get_item dict_in "Ref_Key"
  let periodRaw ← APIObject.get_item dict_in "ПериодРегистрации"
  let period ← pyFromIsoformat periodRaw
  let org ← APIObject.get_item dict_in "Организация_Key"
  let dsRaw ← APIObject.get_item dict_in "ДатаНачалаПериода"
  let ds ← pyFromIsoformat dsRaw
  let deRaw ← APIObject.get_item dict_in "ДатаОкончанияПериода"
  let de ← pyFromIsoformat deRaw
  let linesRaw ← pySubscript dict_in "ДанныеОВремени"
  let lineVals ← (match linesRaw with
    | .arr elems => .ok elems
    | _ => .error .typeError)   -- iterating a non-list: not reached below
  let lines ← lineVals.mapM TimeSheetLine.init_from_dict
  let number ← APIObject.get_item dict_in "Number"
  let dateRaw ← APIObject.get_item dict_in "Date"
  let stamp ← pyFromIsoformat dateRaw
  let orgunit ← APIObject.get_item dict_in "Подразделение_Key"
  pure (init i (some (pyDateOf period)) ⟨org⟩ (some (pyDateOf ds))
    (some (pyDateOf de)) lines number (some stamp) (some ⟨orgunit⟩))

/-- `TimeSheet.to_dict`: render the date fields
(`datetime.combine(d, datetime.min.time()).isoformat()` appends
`T00:00:00` to a date's ISO text), merge everything over the inherited
dict and drop entries whose value is falsy. -/
def to_dict (self : TimeSheet) : PyDict :=
  let date_start_str : JVal :=
    match self.date_start with
    | some d => .s (d ++ "T00:00:00")
    | none => .null
  let date_end_str : JVal :=
    match self.date_end with
    | some d => .s (d ++ "T00:00:00")
    | none => .null
  let datetime_stamp_str : JVal :=
    match self.datetime_stamp with
    | some dt => .s dt
    | none => .null
  let period_str : JVal :=
    match self.period with
    | some d => .s (d ++ "T00:00:00")
    | none => .null
  let orgunit_str : JVal :=
    match self.orgunit with
    | some o => o.obj_id
    | none => .null
  dropFalsy (dmerge self.toAPIObjectID.to_dict
    [("Number", self.number), ("Date", datetime_stamp_str),
     ("ПериодРегистрации", period_str),
     ("Организация_Key", self.organization.obj_id),
     ("Подразделение_Key", orgunit_str),
     ("ДатаНачалаПериода", date_start_str),
     ("ДатаОкончанияПериода", date_end_str),
     ("ДанныеОВремени", .arr (self.time_sheet_lines.map (fun x => JVal.obj x.to_dict)))])

end TimeSheet

/-! ## models.py — datetime adapter -/

/-- A Python `datetime`: wall-clock seconds (since some fixed epoch, in the
datetime's own timezone) and the attached UTC offset in seconds (`none` for
a naive datetime). -/
structure PyDatetime where
  wall : ℤ
  tz : Option ℤ

/-- `dt.astimezone(dateutil.tz.UTC)`: convert to UTC preserving the
instant; a naive datetime is interpreted in the local timezone
(`localOff`, seconds east of UTC). -/
def PyDatetime.astimezoneUTC (dt : PyDatetime) (localOff : ℤ) : PyDatetime :=
  match dt.tz with
  | some off => ⟨dt.wall - off, some 0⟩
  | none => ⟨dt.wall - localOff, some 0⟩

/-- Hinnant's civil-from-days: the proleptic Gregorian (year, month, day)
of a day count relative to 1970-01-01. -/
def civilFromDays (z0 : ℤ) : ℤ × ℤ × ℤ :=
  let z := z0 + 719468
  let era := Int.fdiv z 146097
  let doe := z - era * 146097
  let yoe := Int.fdiv (doe - Int.fdiv doe 1460 + Int.fdiv doe 36524 - Int.fdiv doe 146096) 365
  let y := yoe + era * 400
  let doy := doe - (365 * yoe + Int.fdiv yoe 4 - Int.fdiv yoe 100)
  let mp := Int.fdiv (5 * doy + 2) 153
  let dd := doy - Int.fdiv (153 * mp + 2) 5 + 1
  let mm := mp + (if mp < 10 then 3 else -9)
  (y + (if mm ≤ 2 then 1 else 0), mm, dd)

/-- Zero-padded decimal rendering of a non-negative integer. -/
def padz (width : ℕ) (z : ℤ) : String :=
  let s := toString z.toNat
  String.mk (List.replicate (width - s.length) '0') ++ s

/-- `strftime` for the one pattern the adapter uses,
`%Y-%m-%dT%H:%M:%SZ`; any other pattern is not modelled. -/
def strftimeWire (fmt : String) (dt : PyDatetime) : String :=
  if fmt = "%Y-%m-%dT%H:%M:%SZ" then
    let days := Int.fdiv dt.wall 86400
    let secs := dt.wall - days * 86400
    let c := civilFromDays days
    padz 4 c.1 ++ "-" ++ padz 2 c.2.1 ++ "-" ++ padz 2 c.2.2 ++ "T" ++
      padz 2 (Int.fdiv secs 3600) ++ ":" ++ padz 2 (Int.fdiv secs 60 % 60) ++ ":" ++
      padz 2 (secs % 60) ++ "Z"
  else ""

/-- `Client1CDatetime`: the adapter object; `localOff` (the machine's local
UTC offset in seconds, `dateutil.tz.tzlocal()`) is threaded as an explicit
parameter. -/
structure Client1CDatetime where
  datetime : PyDatetime

namespace Client1CDatetime

/-- The class attribute `datetime_format` — the only format-string
attribute the class defines. -/
def datetime_format : String := "%Y-%m-%dT%H:%M:%SZ"

/-- Attribute lookup on the class for format strings: exactly
`datetime_format` exists; any other name raises `AttributeError`. -/
def getFormatAttr (attr : String) : Except PyErr String :=
  if attr = "datetime_format" then .ok datetime_format
  else .error (.attributeError attr)

/-- `Client1CDatetime.__init__`: a naive input gets
`replace(tzinfo=dateutil.tz.tzlocal())`; an aware input is stored as is. -/
def init (localOff : ℤ) (datetime_in : PyDatetime) : Client1CDatetime :=
  if datetime_in.tz.isNone then ⟨{ datetime_in with tz := some localOff }⟩
  else ⟨datetime_in⟩

/-- Property `datetime_utc`. -/
def datetime_utc (self : Client1CDatetime) (localOff : ℤ) : PyDatetime :=
  self.datetime.astimezoneUTC localOff

/-- Property `clockify_datetime`:
`self.datetime_utc.strftime(self.clockify_datetime_format)` — the attribute
read is `clockify_datetime_format`, which the class does not define (its
format attribute is named `datetime_format`), so the property raises
`AttributeError` before any formatting happens. -/
def clockify_datetime (self : Client1CDatetime) (localOff : ℤ) : Except PyErr String := do
  let fmt ← getFormatAttr "clockify_datetime_format"
  .ok (strftimeWire fmt (datetime_utc self localOff))

end Client1CDatetime

namespace APIObject

/-- `APIObject.get_datetime`: fetch `dict_in[key]` with `get_item`, return
`None` for a falsy value, otherwise call
`ClockifyDatetime.init_from_string(date_str)` — a name that does not exist
in models.py (the class is `Client1CDatetime`), so every non-empty date
string raises the builtin `NameError`. -/
def get_datetime (dict_in : JVal) (key : String) (raise_error : Bool := true) :
    Except PyErr (Option PyDatetime) := do
  let date_str ← get_item dict_in key raise_error
  if !pyTruthy date_str then pure none
  else .error (.nameError "ClockifyDatetime")

end APIObject

/-- A well-formed `odata.error` envelope with the given code and message
value. -/
def mkEnvelope (code msg : JVal) : JVal :=
  .obj [("odata.error", .obj [("code", code), ("message", .obj [("value", msg)])])]

/-- The binary64 value of the one-decimal literal `k/10` (what Python's
`json` decoder or float literal syntax produces for `k/10` written with one
decimal digit). -/
def oneDec (k : ℕ) : Q := rnd ⟨k, 10⟩

/-- `int(hours*10)`: the internal tenths value stored by
`TimeSheetRecord.__init__` for a float input. -/
def storedHours (h : Q) : ℤ := (rnd (h.mul (Q.ofInt 10))).trunc

/-- `get_hours` applied to a record built from the float `h`: the value the
serializer emits for an hours field parsed as `h`. -/
def hoursReemitted (h : Q) : Q := rnd ⟨storedHours h, 10⟩

/-- A fully-populated 31-day `TimeSheetLine` wire fragment, keyed exactly as
the source reads and writes it (day-indexed values given by functions). -/
def mkLineFragment (refv linev empv : JVal) (hs : ℕ → Q)
    (tg terr usl ws : ℕ → JVal) : PyDict :=
  [("Ref_Key", refv), ("LineNumber", linev), ("Сотрудник_Key", empv)]
  ++ TimeSheetLine.days.map (fun d => ("Часов" ++ natToStr d, JVal.num (hs d)))
  ++ TimeSheetLine.days.map (fun d => ("ВидВремени" ++ natToStr d ++ "_Key", tg d))
  ++ TimeSheetLine.days.map (fun d => ("Территория" ++ natToStr d ++ "_Key", terr d))
  ++ TimeSheetLine.days.map (fun d => ("УсловияТруда" ++ natToStr d ++ "_Key", usl d))
  ++ TimeSheetLine.days.map (fun d => ("ПереходящаяЧастьСмены" ++ natToStr d, ws d))

/-! ## Association-list lemmas -/

/-- Sanity: the binary64 value of the literal `8.3`
(`0x1.0999999999999ap+3 = 2336242306698445 / 2^48`). -/
theorem rnd_83_tenths : rnd ⟨83, 10⟩ = ⟨2336242306698445, 281474976710656⟩ := by
  decide

/-- Sanity: the binary64 value of the literal `0.1`. -/
theorem rnd_1_tenth : rnd ⟨1, 10⟩ = ⟨3602879701896397, 36028797018963968⟩ := by
  decide

/-- Sanity: `8.3 * 10` rounds to exactly `83.0` in binary64. -/
theorem rnd_83 : rnd ((rnd ⟨83, 10⟩).mul (Q.ofInt 10)) = ⟨83, 1⟩ := by
  decide



theorem dlookup_eq_none {d : PyDict} {k : String} (h : k ∉ d.map Prod.fst) :
    dlookup d k = none := by
  induction d with
  | nil => rfl
  | cons p rest ih =>
    simp only [List.map_cons, List.mem_cons, not_or] at h
    simp only [dlookup, if_neg (fun hh : p.1 = k => h.1 hh.symm)]
    exact ih h.2

theorem keys_dropFalsy_sub {d : PyDict} {k : String}
    (h : k ∈ (dropFalsy d).map Prod.fst) : k ∈ d.map Prod.fst := by
  simp only [dropFalsy, List.mem_map] at h ⊢
  obtain ⟨p, hp, hk⟩ := h
  exact ⟨p, List.mem_of_mem_filter hp, hk⟩

theorem dlookup_dropFalsy (d : PyDict) (k : String)
    (h : (d.map Prod.fst).Nodup) :
    dlookup (dropFalsy d) k =
      match dlookup d k with
      | some v => if pyTruthy v then some v else none
      | none => none := by
  induction d with
  | nil => rfl
  | cons p rest ih =>
    simp only [List.map_cons, List.nodup_cons] at h
    obtain ⟨hp, hrest⟩ := h
    by_cases hk : p.1 = k
    · by_cases ht : pyTruthy p.2
      · simp [dropFalsy, List.filter_cons, ht, dlookup, hk]
      · have hnone : dlookup (List.filter (fun p => pyTruthy p.2) rest) k = none := by
          apply dlookup_eq_none
          intro hm
          exact hp (by rw [hk]; exact keys_dropFalsy_sub hm)
        simp [dropFalsy, List.filter_cons, ht, dlookup, hk, hnone]
    · by_cases ht : pyTruthy p.2
      · simpa [dropFalsy, List.filter_cons, ht, dlookup, hk] using ih hrest
      · simpa [dropFalsy, List.filter_cons, ht, dlookup, hk] using ih hrest

theorem mem_dropFalsy_truthy {d : PyDict} {p : String × JVal}
    (h : p ∈ dropFalsy d) : pyTruthy p.2 = true := by
  simp only [dropFalsy, List.mem_filter] at h
  exact h.2

/-! ## Claims -/

/-- C6: for identifier-bearing objects, equality is decided by `obj_id`
alone — two `NamedAPIObject`s with the same id and arbitrary (possibly
different) names compare equal; comparing any object against `None` returns
`False` without raising; and the hash is a function of `obj_id` only. -/
theorem c6_identity_equality (i : String) (name1 name2 : JVal)
    (x y : APIObjectID) (hxy : x.obj_id = y.obj_id) :
    (NamedAPIObject.mk ⟨.s i⟩ name1).toAPIObjectID.eqPy
      (some (NamedAPIObject.mk ⟨.s i⟩ name2).toAPIObjectID) = true
    ∧ x.eqPy none = false
    ∧ x.hashPy = y.hashPy := by
  refine ⟨?_, rfl, ?_⟩
  · simp [APIObjectID.eqPy, jvalEqPy, jeqF]
  · simp [APIObjectID.hashPy, hxy]

/-- Witness for C6 at concrete inputs. -/
theorem c6_identity_equality_witness :
    (APIObjectID.mk (.s "abc") = APIObjectID.mk (.s "abc"))
    ∧ ((NamedAPIObject.mk ⟨.s "id-1"⟩ (.s "Alice")).toAPIObjectID.eqPy
        (some (NamedAPIObject.mk ⟨.s "id-1"⟩ (.s "Bob")).toAPIObjectID) = true
      ∧ (APIObjectID.mk (.s "abc")).eqPy none = false
      ∧ (APIObjectID.mk (.s "abc")).hashPy = (APIObjectID.mk (.s "abc")).hashPy) :=
  ⟨rfl, c6_identity_equality "id-1" (.s "Alice") (.s "Bob") ⟨.s "abc"⟩ ⟨.s "abc"⟩ rfl⟩

/-- C9: serialization of `TimeGroup`, `Employee` and `TimeSheet` filters by
truthiness — no emitted value is falsy, and a field holding a falsy value
(`None`, empty string, zero, `False`) is omitted from the output mapping
rather than emitted as null. -/
theorem c9_falsy_fields_dropped (tg : TimeGroup) (e : Employee) (ts : TimeSheet) :
    (∀ p ∈ tg.to_dict, pyTruthy p.2 = true)
    ∧ (dlookup tg.to_dict "Ref_Key"
        = if pyTruthy tg.obj_id then some tg.obj_id else none)
    ∧ (dlookup tg.to_dict "Description"
        = if pyTruthy tg.name then some tg.name else none)
    ∧ (dlookup tg.to_dict "БуквенныйКод"
        = if pyTruthy tg.letter then some tg.letter else none)
    ∧ (dlookup tg.to_dict "ЦифровойКод"
        = if pyTruthy tg.digit then some tg.digit else none)
    ∧ (∀ p ∈ e.to_dict, pyTruthy p.2 = true)
    ∧ (dlookup e.to_dict "ФизическоеЛицо_Key"
        = if pyTruthy e.person.obj_id then some e.person.obj_id else none)
    ∧ (dlookup e.to_dict "ГоловнаяОрганизация_Key"
        = if pyTruthy e.organization.obj_id then some e.organization.obj_id else none)
    ∧ (∀ p ∈ ts.to_dict, pyTruthy p.2 = true)
    ∧ (dlookup ts.to_dict "Number"
        = if pyTruthy ts.number then some ts.number else none) := by
  have htg : tg.to_dict = dropFalsy
      [("Ref_Key", tg.obj_id), ("Description", tg.name),
       ("БуквенныйКод", tg.letter), ("ЦифровойКод", tg.digit)] := rfl
  have he : e.to_dict = dropFalsy
      [("Ref_Key", e.obj_id), ("Description", e.name),
       ("ФизическоеЛицо_Key", e.person.obj_id),
       ("ГоловнаяОрганизация_Key", e.organization.obj_id)] := rfl
  have hts : ts.to_dict = dropFalsy
      [("Ref_Key", ts.obj_id), ("Number", ts.number),
       ("Date", match ts.datetime_stamp with | some dt => .s dt | none => .null),
       ("ПериодРегистрации",
         match ts.period with | some d => .s (d ++ "T00:00:00") | none => .null),
       ("Организация_Key", ts.organization.obj_id),
       ("Подразделение_Key",
         match ts.orgunit with | some o => o.obj_id | none => .null),
       ("ДатаНачалаПериода",
         match ts.date_start with | some d => .s (d ++ "T00:00:00") | none => .null),
       ("ДатаОкончанияПериода",
         match ts.date_end with | some d => .s (d ++ "T00:00:00") | none => .null),
       ("ДанныеОВремени",
         .arr (ts.time_sheet_lines.map (fun x => JVal.obj x.to_dict)))] := rfl
  have ntg : (List.map Prod.fst
      [("Ref_Key", tg.obj_id), ("Description", tg.name),
       ("БуквенныйКод", tg.letter), ("ЦифровойКод", tg.digit)]).Nodup := by
    show (["Ref_Key", "Description", "БуквенныйКод", "ЦифровойКод"] : List String).Nodup
    decide
  have ne2 : (List.map Prod.fst
      [("Ref_Key", e.obj_id), ("Description", e.name),
       ("ФизическоеЛицо_Key", e.person.obj_id),
       ("ГоловнаяОрганизация_Key", e.organization.obj_id)]).Nodup := by
    show (["Ref_Key", "Description", "ФизическоеЛицо_Key",
      "ГоловнаяОрганизация_Key"] : List String).Nodup
    decide
  have nts : (List.map Prod.fst
      [("Ref_Key", ts.obj_id), ("Number", ts.number),
       ("Date", match ts.datetime_stamp with | some dt => JVal.s dt | none => JVal.null),
       ("ПериодРегистрации",
         match ts.period with | some d => JVal.s (d ++ "T00:00:00") | none => JVal.null),
       ("Организация_Key", ts.organization.obj_id),
       ("Подразделение_Key",
         match ts.orgunit with | some o => o.obj_id | none => JVal.null),
       ("ДатаНачалаПериода",
         match ts.date_start with | some d => JVal.s (d ++ "T00:00:00") | none => JVal.null),
       ("ДатаОкончанияПериода",
         match ts.date_end with | some d => JVal.s (d ++ "T00:00:00") | none => JVal.null),
       ("ДанныеОВремени",
         JVal.arr (ts.time_sheet_lines.map (fun x => JVal.obj x.to_dict)))]).Nodup := by
    show (["Ref_Key", "Number", "Date", "ПериодРегистрации", "Организация_Key",
      "Подразделение_Key", "ДатаНачалаПериода", "ДатаОкончанияПериода",
      "ДанныеОВремени"] : List String).Nodup
    decide
  refine ⟨fun p hp => mem_dropFalsy_truthy (htg ▸ hp), ?_, ?_, ?_, ?_,
    fun p hp => mem_dropFalsy_truthy (he ▸ hp), ?_, ?_,
    fun p hp => mem_dropFalsy_truthy (hts ▸ hp), ?_⟩
  · rw [htg, dlookup_dropFalsy _ _ ntg]; rfl
  · rw [htg, dlookup_dropFalsy _ _ ntg]; rfl
  · rw [htg, dlookup_dropFalsy _ _ ntg]; rfl
  · rw [htg, dlookup_dropFalsy _ _ ntg]; rfl
  · rw [he, dlookup_dropFalsy _ _ ne2]; rfl
  · rw [he, dlookup_dropFalsy _ _ ne2]; rfl
  · rw [hts, dlookup_dropFalsy _ _ nts]; rfl

theorem ebind_ok {α β : Type} (a : α) (f : α → Except PyErr β) :
    (Except.ok a >>= f : Except PyErr β) = f a := rfl

theorem ebind_err {α β : Type} (e : PyErr) (f : α → Except PyErr β) :
    (Except.error e >>= f : Except PyErr β) = .error e := rfl

theorem epure {α : Type} (a : α) : (pure a : Except PyErr α) = .ok a := rfl

theorem emap_ok {α β : Type} (f : α → β) (a : α) :
    (f <$> (Except.ok a : Except PyErr α)) = .ok (f a) := rfl

theorem emap_err {α β : Type} (f : α → β) (e : PyErr) :
    (f <$> (Except.error e : Except PyErr α)) = .error e := rfl

theorem parse_of_non2xx (r : APIRawResponse) (h200 : r.status_code ≠ 200)
    (h201 : r.status_code ≠ 201) :
    APIRawResponse.parse r
      = APIRawResponse.parse_json_clockify_error r >>= (fun error_response =>
          if pyEqInt error_response.code 404 then .error (.apiServer404 error_response)
          else .error (.apiServerException error_response)) := by
  unfold APIRawResponse.parse
  rw [if_neg (by tauto)]

/-- C3: `APIRawResponse.parse` classifies every non-2xx response — a valid
`odata.error` envelope whose code equals 404 raises `APIServer404`; one
whose code does not equal 404 raises `APIServerException` (never
`APIServer404`); a body that is not valid JSON raises
`APIResponseParseException`. -/
theorem c3_error_classification (st : ℕ) (code msg : JVal)
    (h200 : st ≠ 200) (h201 : st ≠ 201) :
    (pyEqInt code 404 = true →
      APIRawResponse.parse ⟨st, some (mkEnvelope code msg)⟩
        = .error (.apiServer404 ⟨code, msg⟩))
    ∧ (pyEqInt code 404 = false →
      APIRawResponse.parse ⟨st, some (mkEnvelope code msg)⟩
        = .error (.apiServerException ⟨code, msg⟩))
    ∧ APIRawResponse.parse ⟨st, none⟩ = .error .apiResponseParse := by
  have henv : APIRawResponse.parse_json_clockify_error
      ⟨st, some (mkEnvelope code msg)⟩ = .ok ⟨code, msg⟩ := rfl
  refine ⟨fun hc => ?_, fun hc => ?_, ?_⟩
  · rw [parse_of_non2xx _ h200 h201, henv, ebind_ok]
    simp [hc]
  · rw [parse_of_non2xx _ h200 h201, henv, ebind_ok]
    simp [hc]
  · rw [parse_of_non2xx _ h200 h201]
    rfl

/-- Witness for C3 at concrete inputs (HTTP 500 with code `404` and with a
non-404 code; and a 404-status body that is not JSON). -/
theorem c3_error_classification_witness :
    ((500 : ℕ) ≠ 200 ∧ (500 : ℕ) ≠ 201 ∧ pyEqInt (.num ⟨404, 1⟩) 404 = true
      ∧ pyEqInt (.s "x") 404 = false)
    ∧ APIRawResponse.parse ⟨500, some (mkEnvelope (.num ⟨404, 1⟩) (.s "not found"))⟩
        = .error (.apiServer404 ⟨.num ⟨404, 1⟩, .s "not found"⟩)
    ∧ APIRawResponse.parse ⟨500, some (mkEnvelope (.s "x") (.s "boom"))⟩
        = .error (.apiServerException ⟨.s "x", .s "boom"⟩)
    ∧ APIRawResponse.parse ⟨404, none⟩ = .error .apiResponseParse :=
  ⟨⟨by decide, by decide, by decide, by decide⟩,
    (c3_error_classification 500 (.num ⟨404, 1⟩) (.s "not found")
      (by decide) (by decide)).1 (by decide),
    (c3_error_classification 500 (.s "x") (.s "boom")
      (by decide) (by decide)).2.1 (by decide),
    (c3_error_classification 404 (.s "x") (.s "boom")
      (by decide) (by decide)).2.2⟩

/-- C7 counterexample: the claim quantifies over every 200/201 response
whose body is valid JSON, but a body decoding to a JSON *list* (for example
`[1,2,3]`) does not come back unchanged — `parse` calls `.keys()` on it and
raises `AttributeError`. -/
theorem c7_counterexample :
    APIRawResponse.parse ⟨200, some (.arr [.num ⟨1, 1⟩, .num ⟨2, 1⟩, .num ⟨3, 1⟩])⟩
      = .error (.attributeError "keys")
    ∧ APIRawResponse.parse ⟨200, some (.arr [.num ⟨1, 1⟩, .num ⟨2, 1⟩, .num ⟨3, 1⟩])⟩
      ≠ .ok (.arr [.num ⟨1, 1⟩, .num ⟨2, 1⟩, .num ⟨3, 1⟩]) := by
  refine ⟨rfl, fun h => ?_⟩
  rw [show APIRawResponse.parse ⟨200, some (.arr [.num ⟨1, 1⟩, .num ⟨2, 1⟩, .num ⟨3, 1⟩])⟩
    = .error (.attributeError "keys") from rfl] at h
  exact Except.noConfusion h

/-- C7 (amended to bodies that decode to JSON objects): a 200 or 201
response whose body decodes to an object with a `value` key yields exactly
that key's content, and one without a `value` key yields the decoded object
unchanged.  (A body decoding to a non-object raises `AttributeError` on
`.keys()`.) -/
theorem c7_value_unwrapping (fields : PyDict) :
    (APIRawResponse.parse ⟨200, some (.obj fields)⟩
      = match dlookup fields "value" with
        | some v => .ok v
        | none => .ok (.obj fields))
    ∧ (APIRawResponse.parse ⟨201, some (.obj fields)⟩
      = match dlookup fields "value" with
        | some v => .ok v
        | none => .ok (.obj fields)) := by
  constructor <;>
  · cases hv : dlookup fields "value" <;>
      simp [APIRawResponse.parse, APIRawResponse.parse_json, pyKeys, hasKey,
        pySubscript, hv, ebind_ok, ebind_err]

/-- C8: with a decoded JSON error body whose `odata.error` field is an
object, `parse_json_clockify_error` raises `APIResponseParseException` when
the `message` key is absent, when the `message` value has no `value` member,
or when the `code` key is absent; with both present it returns an
`APIErrorResponse` carrying that code and message. -/
theorem c8_envelope_validation (st : ℕ) (fields oeFields : PyDict)
    (hoe : dlookup fields "odata.error" = some (.obj oeFields)) :
    (dlookup oeFields "message" = none →
      APIRawResponse.parse_json_clockify_error ⟨st, some (.obj fields)⟩
        = .error .apiResponseParse)
    ∧ (∀ m, dlookup oeFields "message" = some m → pyContains m "value" = .ok false →
      APIRawResponse.parse_json_clockify_error ⟨st, some (.obj fields)⟩
        = .error .apiResponseParse)
    ∧ (∀ m v, dlookup oeFields "message" = some m → pyContains m "value" = .ok true →
      pySubscript m "value" = .ok v → dlookup oeFields "code" = none →
      APIRawResponse.parse_json_clockify_error ⟨st, some (.obj fields)⟩
        = .error .apiResponseParse)
    ∧ (∀ m v c, dlookup oeFields "message" = some m → pyContains m "value" = .ok true →
      pySubscript m "value" = .ok v → dlookup oeFields "code" = some c →
      APIRawResponse.parse_json_clockify_error ⟨st, some (.obj fields)⟩
        = .ok ⟨c, v⟩) := by
  have h1 : pySubscript (JVal.obj fields) "odata.error" = .ok (.obj oeFields) := by
    simp [pySubscript, hoe]
  refine ⟨fun hm => ?_, fun m hm hv => ?_, fun m v hm hc hv hcode => ?_,
    fun m v c hm hc hv hcode => ?_⟩
  · simp [APIRawResponse.parse_json_clockify_error, APIRawResponse.parse_json,
      pyKeys, hasKey, hoe, hm, h1, ebind_ok, ebind_err, epure, emap_ok, emap_err]
  · simp [APIRawResponse.parse_json_clockify_error, APIRawResponse.parse_json,
      pyKeys, hasKey, hoe, hm, hv, h1, ebind_ok, ebind_err, epure, emap_ok, emap_err]
  · simp [APIRawResponse.parse_json_clockify_error, APIRawResponse.parse_json,
      pyKeys, hasKey, hoe, hm, hc, hv, hcode, h1, ebind_ok, ebind_err, epure,
      emap_ok, emap_err]
  · have h2 : pySubscript (JVal.obj oeFields) "code" = .ok c := by
      simp [pySubscript, hcode]
    simp [APIRawResponse.parse_json_clockify_error, APIRawResponse.parse_json,
      pyKeys, hasKey, hoe, hm, hc, hv, hcode, h1, h2, ebind_ok, ebind_err, epure,
      emap_ok, emap_err]

/-- Witness for C8 at concrete envelopes (missing `message`, `message`
without `value`, missing `code`, and a complete envelope). -/
theorem c8_envelope_validation_witness :
    (dlookup [("odata.error", JVal.obj [("code", JVal.num ⟨7, 1⟩)])] "odata.error"
        = some (.obj [("code", JVal.num ⟨7, 1⟩)])
      ∧ dlookup [("code", JVal.num ⟨7, 1⟩)] "message" = none)
    ∧ APIRawResponse.parse_json_clockify_error
        ⟨500, some (.obj [("odata.error", .obj [("code", .num ⟨7, 1⟩)])])⟩
        = .error .apiResponseParse
    ∧ APIRawResponse.parse_json_clockify_error
        ⟨500, some (.obj [("odata.error", .obj [("message", .obj [])])])⟩
        = .error .apiResponseParse
    ∧ APIRawResponse.parse_json_clockify_error
        ⟨500, some (.obj [("odata.error",
            .obj [("message", .obj [("value", .s "oops")])])])⟩
        = .error .apiResponseParse
    ∧ APIRawResponse.parse_json_clockify_error
        ⟨500, some (.obj [("odata.error",
            .obj [("message", .obj [("value", .s "oops")]), ("code", .num ⟨1, 1⟩)])])⟩
        = .ok ⟨.num ⟨1, 1⟩, .s "oops"⟩ :=
  ⟨⟨rfl, rfl⟩,
    (c8_envelope_validation 500 [("odata.error", .obj [("code", .num ⟨7, 1⟩)])]
      [("code", .num ⟨7, 1⟩)] rfl).1 rfl,
    (c8_envelope_validation 500 [("odata.error", .obj [("message", .obj [])])]
      [("message", .obj [])] rfl).2.1 (.obj []) rfl rfl,
    (c8_envelope_validation 500
      [("odata.error", .obj [("message", .obj [("value", .s "oops")])])]
      [("message", .obj [("value", .s "oops")])] rfl).2.2.1
      (.obj [("value", .s "oops")]) (.s "oops") rfl rfl rfl rfl,
    (c8_envelope_validation 500
      [("odata.error", .obj [("message", .obj [("value", .s "oops")]), ("code", .num ⟨1, 1⟩)])]
      [("message", .obj [("value", .s "oops")]), ("code", .num ⟨1, 1⟩)] rfl).2.2.2
      (.obj [("value", .s "oops")]) (.s "oops") (.num ⟨1, 1⟩) rfl rfl rfl rfl⟩

/-- C10: a decoded JSON error body with no `odata.error` key at all escapes
the guarded validation entirely and hits the unconditional
`parsed['odata.error']` subscript in the return statement — a builtin
`KeyError`, not an `APIResponseParseException`. -/
theorem c10_missing_envelope_keyerror (st : ℕ) (fields : PyDict)
    (h : hasKey fields "odata.error" = false) :
    APIRawResponse.parse_json_clockify_error ⟨st, some (.obj fields)⟩
      = .error (.keyError "odata.error")
    ∧ APIRawResponse.parse_json_clockify_error ⟨st, some (.obj fields)⟩
      ≠ .error .apiResponseParse := by
  have hnone : dlookup fields "odata.error" = none := by
    simpa [hasKey, Option.isSome_iff_exists] using h
  have heq : APIRawResponse.parse_json_clockify_error ⟨st, some (.obj fields)⟩
      = .error (.keyError "odata.error") := by
    simp [APIRawResponse.parse_json_clockify_error, APIRawResponse.parse_json,
      pyKeys, hasKey, pySubscript, hnone, ebind_ok, ebind_err, epure]
  refine ⟨heq, fun hcontra => ?_⟩
  rw [heq] at hcontra
  simp at hcontra

/-- Witness for C10 at a concrete body holding only an `error` key. -/
theorem c10_missing_envelope_keyerror_witness :
    hasKey [("error", JVal.s "oops")] "odata.error" = false
    ∧ APIRawResponse.parse_json_clockify_error
        ⟨500, some (.obj [("error", .s "oops")])⟩ = .error (.keyError "odata.error")
    ∧ APIRawResponse.parse_json_clockify_error
        ⟨500, some (.obj [("error", .s "oops")])⟩ ≠ .error .apiResponseParse :=
  ⟨rfl, (c10_missing_envelope_keyerror 500 [("error", .s "oops")] rfl).1,
    (c10_missing_envelope_keyerror 500 [("error", .s "oops")] rfl).2⟩

/-- C1 counterexample: the round trip is not the identity for every
fully-populated fragment — with hours `8.25` (exactly representable in
binary64) the parsed record stores `int(82.5) = 82` tenths and the
serializer re-emits the float `8.2`, which Python `==` distinguishes from
`8.25`, so `to_dict(init_from_dict(x)) != x`. -/
theorem c1_roundtrip_counterexample :
    ((TimeSheetLine.init_from_dict (.obj (mkLineFragment (.s "r") (.s "1") (.s "e")
        (fun _ => ⟨33, 4⟩) (fun _ => .s "t") (fun _ => .s "z") (fun _ => .s "u")
        (fun _ => .b false)))).map
      (fun l => dlookup l.to_dict "Часов1"))
      = .ok (some (.num (rnd ⟨82, 10⟩)))
    ∧ dlookup (mkLineFragment (.s "r") (.s "1") (.s "e")
        (fun _ => ⟨33, 4⟩) (fun _ => .s "t") (fun _ => .s "z") (fun _ => .s "u")
        (fun _ => .b false)) "Часов1" = some (.num ⟨33, 4⟩)
    ∧ jvalEqPy (.num (rnd ⟨82, 10⟩)) (.num ⟨33, 4⟩) = false :=
  ⟨rfl, rfl, by decide⟩

/-- Merging dicts with disjoint key sets is concatenation. -/
theorem map_update_of_disjoint (d1 d2 : PyDict)
    (h : ∀ k ∈ d1.map Prod.fst, ¬ k ∈ d2.map Prod.fst) :
    d1.map (fun p => match dlookup d2 p.1 with | some v => (p.1, v) | none => p) = d1 := by
  induction d1 with
  | nil => rfl
  | cons p rest ih =>
    have hp : dlookup d2 p.1 = none := dlookup_eq_none (h p.1 (by simp))
    simp only [List.map_cons, hp]
    rw [ih (fun k hk => h k (List.mem_cons_of_mem _ hk))]

/-- Filtering out clashes is the identity when the key sets are disjoint. -/
theorem filter_keep_of_disjoint (d1 d2 : PyDict)
    (h : ∀ k ∈ d1.map Prod.fst, ¬ k ∈ d2.map Prod.fst) :
    d2.filter (fun p => !hasKey d1 p.1) = d2 := by
  rw [List.filter_eq_self]
  intro p hp
  have hmem : ¬ p.1 ∈ d1.map Prod.fst :=
    fun hm => h p.1 hm (List.mem_map_of_mem Prod.fst hp)
  simp [hasKey, dlookup_eq_none hmem]

/-- Python dict union is concatenation when the key sets are disjoint. -/
theorem dmerge_of_disjoint (d1 d2 : PyDict)
    (h : ∀ k ∈ d1.map Prod.fst, ¬ k ∈ d2.map Prod.fst) :
    dmerge d1 d2 = d1 ++ d2 := by
  unfold dmerge
  rw [map_update_of_disjoint d1 d2 h, filter_keep_of_disjoint d1 d2 h]

/-- `dmerge_of_disjoint` with the key lists named explicitly (so the
disjointness side condition is a closed statement). -/
theorem dmerge_of_disjoint_keys (d1 d2 : PyDict) (ks1 ks2 : List String)
    (hk1 : d1.map Prod.fst = ks1) (hk2 : d2.map Prod.fst = ks2)
    (h : ∀ k ∈ ks1, ¬ k ∈ ks2) : dmerge d1 d2 = d1 ++ d2 :=
  dmerge_of_disjoint d1 d2 (fun k hk => by
    rw [hk2]
    exact h k (hk1 ▸ hk))

/-- The Python dict comprehension `{tsr.day: tsr for tsr in records}` keeps
the records unchanged when the day keys are pairwise distinct: the foldl
loop of `tsrDictPy` only ever appends. -/
theorem tsrDictPy_loop (records : List TimeSheetRecord) :
    ∀ acc : List TimeSheetRecord,
      (∀ r ∈ records, ∀ a ∈ acc, ¬ a.day = r.day) →
      (records.map (fun t => t.day)).Nodup →
      records.foldl (fun acc r =>
        if acc.any (fun a => a.day = r.day) then
          acc.map (fun a => if a.day = r.day then r else a)
        else acc ++ [r]) acc = acc ++ records := by
  induction records with
  | nil => intro acc _ _; simp
  | cons r rest ih =>
    intro acc hdisj hnodup
    simp only [List.map_cons, List.nodup_cons] at hnodup
    have hany : acc.any (fun a => a.day = r.day) = false := by
      rw [List.any_eq_false]
      intro a ha
      simp [hdisj r (by simp) a ha]
    have hdisj2 : ∀ r2 ∈ rest, ∀ a ∈ acc ++ [r], ¬ a.day = r2.day := by
      intro r2 hr2 a ha
      rcases List.mem_append.mp ha with hacc | hr
      · exact hdisj r2 (List.mem_cons_of_mem _ hr2) a hacc
      · have : a = r := by simpa using hr
        subst this
        intro hday
        exact hnodup.1 (hday ▸ List.mem_map_of_mem (fun t => t.day) hr2)
    simp only [List.foldl_cons, hany, Bool.false_eq_true, if_false]
    rw [ih (acc ++ [r]) hdisj2 hnodup.2, List.append_assoc]
    rfl

/-- `tsrDictPy` is the identity on record lists with pairwise-distinct
days. -/
theorem tsrDictPy_eq_self (records : List TimeSheetRecord)
    (h : (records.map (fun t => t.day)).Nodup) :
    TimeSheetLine.tsrDictPy records = records := by
  unfold TimeSheetLine.tsrDictPy
  rw [tsrDictPy_loop records [] (by simp) h]
  rfl

set_option maxHeartbeats 8000000 in
/-- C1 (amended to one-decimal hours): for every fully-populated 31-day
wire fragment whose per-day hours values are floats fixed by the
store/accessor round trip (every one-decimal value of practical magnitude
is, by `c2_hours_precision`), `init_from_dict` succeeds and `to_dict`
reproduces the fragment exactly — same keys, same values, with the hours
value reproduced via the hours-as-float accessor. -/
theorem c1_roundtrip (refv linev empv : JVal) (hs : ℕ → Q)
    (tg terr usl ws : ℕ → JVal)
    (hh : ∀ d, hoursReemitted (hs d) = hs d) :
    (TimeSheetLine.init_from_dict
        (.obj (mkLineFragment refv linev empv hs tg terr usl ws))).map
      TimeSheetLine.to_dict
      = .ok (mkLineFragment refv linev empv hs tg terr usl ws) := by
  have hfun : (fun d => hoursReemitted (hs d)) = hs := funext hh
  have hinit : TimeSheetLine.init_from_dict
      (.obj (mkLineFragment refv linev empv hs tg terr usl ws))
      = .ok ⟨⟨refv⟩, linev, ⟨empv⟩,
          TimeSheetLine.days.map (fun d => TimeSheetRecord.mk d (storedHours (hs d)) ⟨tg d⟩ ⟨terr d⟩ ⟨usl d⟩ (ws d))⟩ := rfl
  have etsr : TimeSheetLine.tsrDictPy (TimeSheetLine.days.map (fun d => TimeSheetRecord.mk d (storedHours (hs d)) ⟨tg d⟩ ⟨terr d⟩ ⟨usl d⟩ (ws d)))
      = TimeSheetLine.days.map (fun d => TimeSheetRecord.mk d (storedHours (hs d)) ⟨tg d⟩ ⟨terr d⟩ ⟨usl d⟩ (ws d)) := by
    apply tsrDictPy_eq_self
    show ([1, 2, 3, 4, 5, 6, 7, 8, 9, 10, 11, 12, 13, 14, 15, 16, 17, 18, 19,
      20, 21, 22, 23, 24, 25, 26, 27, 28, 29, 30, 31] : List ℕ).Nodup
    decide
  have hkA : ([("Ref_Key", refv)] : PyDict).map Prod.fst = (["Ref_Key"] : List String) := rfl
  have hkB : ([("LineNumber", linev), ("Сотрудник_Key", empv)] : PyDict).map Prod.fst = (["LineNumber", "Сотрудник_Key"] : List String) := rfl
  have hkH : (((TimeSheetLine.days.map (fun d => TimeSheetRecord.mk d (storedHours (hs d)) ⟨tg d⟩ ⟨terr d⟩ ⟨usl d⟩ (ws d))).map (fun t => ("Часов" ++ natToStr t.day, JVal.num t.get_hours))) : PyDict).map Prod.fst = (["Часов1", "Часов2", "Часов3", "Часов4", "Часов5", "Часов6", "Часов7", "Часов8", "Часов9", "Часов10", "Часов11", "Часов12", "Часов13", "Часов14", "Часов15", "Часов16", "Часов17", "Часов18", "Часов19", "Часов20", "Часов21", "Часов22", "Часов23", "Часов24", "Часов25", "Часов26", "Часов27", "Часов28", "Часов29", "Часов30", "Часов31"] : List String) := by
    rw [List.map_map, List.map_map]
    show TimeSheetLine.days.map (fun d => "Часов" ++ natToStr d) = _
    decide
  have hkV : (((TimeSheetLine.days.map (fun d => TimeSheetRecord.mk d (storedHours (hs d)) ⟨tg d⟩ ⟨terr d⟩ ⟨usl d⟩ (ws d))).map (fun t => ("ВидВремени" ++ natToStr t.day ++ "_Key", t.time_group.obj_id))) : PyDict).map Prod.fst = (["ВидВремени1_Key", "ВидВремени2_Key", "ВидВремени3_Key", "ВидВремени4_Key", "ВидВремени5_Key", "ВидВремени6_Key", "ВидВремени7_Key", "ВидВремени8_Key", "ВидВремени9_Key", "ВидВремени10_Key", "ВидВремени11_Key", "ВидВремени12_Key", "ВидВремени13_Key", "ВидВремени14_Key", "ВидВремени15_Key", "ВидВремени16_Key", "ВидВремени17_Key", "ВидВремени18_Key", "ВидВремени19_Key", "ВидВремени20_Key", "ВидВремени21_Key", "ВидВремени22_Key", "ВидВремени23_Key", "ВидВремени24_Key", "ВидВремени25_Key", "ВидВремени26_Key", "ВидВремени27_Key", "ВидВремени28_Key", "ВидВремени29_Key", "ВидВремени30_Key", "ВидВремени31_Key"] : List String) := by
    rw [List.map_map, List.map_map]
    show TimeSheetLine.days.map (fun d => "ВидВремени" ++ natToStr d ++ "_Key") = _
    decide
  have hkT : (((TimeSheetLine.days.map (fun d => TimeSheetRecord.mk d (storedHours (hs d)) ⟨tg d⟩ ⟨terr d⟩ ⟨usl d⟩ (ws d))).map (fun t => ("Территория" ++ natToStr t.day ++ "_Key", t.territory.obj_id))) : PyDict).map Prod.fst = (["Территория1_Key", "Территория2_Key", "Территория3_Key", "Территория4_Key", "Территория5_Key", "Территория6_Key", "Территория7_Key", "Территория8_Key", "Территория9_Key", "Территория10_Key", "Территория11_Key", "Территория12_Key", "Территория13_Key", "Территория14_Key", "Территория15_Key", "Территория16_Key", "Территория17_Key", "Территория18_Key", "Территория19_Key", "Территория20_Key", "Территория21_Key", "Территория22_Key", "Территория23_Key", "Территория24_Key", "Территория25_Key", "Территория26_Key", "Территория27_Key", "Территория28_Key", "Территория29_Key", "Территория30_Key", "Территория31_Key"] : List String) := by
    rw [List.map_map, List.map_map]
    show TimeSheetLine.days.map (fun d => "Территория" ++ natToStr d ++ "_Key") = _
    decide
  have hkU : (((TimeSheetLine.days.map (fun d => TimeSheetRecord.mk d (storedHours (hs d)) ⟨tg d⟩ ⟨terr d⟩ ⟨usl d⟩ (ws d))).map (fun t => ("УсловияТруда" ++ natToStr t.day ++ "_Key", t.working_conditions.obj_id))) : PyDict).map Prod.fst = (["УсловияТруда1_Key", "УсловияТруда2_Key", "УсловияТруда3_Key", "УсловияТруда4_Key", "УсловияТруда5_Key", "УсловияТруда6_Key", "УсловияТруда7_Key", "УсловияТруда8_Key", "УсловияТруда9_Key", "УсловияТруда10_Key", "УсловияТруда11_Key", "УсловияТруда12_Key", "УсловияТруда13_Key", "УсловияТруда14_Key", "УсловияТруда15_Key", "УсловияТруда16_Key", "УсловияТруда17_Key", "УсловияТруда18_Key", "УсловияТруда19_Key", "УсловияТруда20_Key", "УсловияТруда21_Key", "УсловияТруда22_Key", "УсловияТруда23_Key", "УсловияТруда24_Key", "УсловияТруда25_Key", "УсловияТруда26_Key", "УсловияТруда27_Key", "УсловияТруда28_Key", "УсловияТруда29_Key", "УсловияТруда30_Key", "УсловияТруда31_Key"] : List String) := by
    rw [List.map_map, List.map_map]
    show TimeSheetLine.days.map (fun d => "УсловияТруда" ++ natToStr d ++ "_Key") = _
    decide
  have hkW : (((TimeSheetLine.days.map (fun d => TimeSheetRecord.mk d (storedHours (hs d)) ⟨tg d⟩ ⟨terr d⟩ ⟨usl d⟩ (ws d))).map (fun t => ("ПереходящаяЧастьСмены" ++ natToStr t.day, t.work_shift))) : PyDict).map Prod.fst = (["ПереходящаяЧастьСмены1", "ПереходящаяЧастьСмены2", "ПереходящаяЧастьСмены3", "ПереходящаяЧастьСмены4", "ПереходящаяЧастьСмены5", "ПереходящаяЧастьСмены6", "ПереходящаяЧастьСмены7", "ПереходящаяЧастьСмены8", "ПереходящаяЧастьСмены9", "ПереходящаяЧастьСмены10", "ПереходящаяЧастьСмены11", "ПереходящаяЧастьСмены12", "ПереходящаяЧастьСмены13", "ПереходящаяЧастьСмены14", "ПереходящаяЧастьСмены15", "ПереходящаяЧастьСмены16", "ПереходящаяЧастьСмены17", "ПереходящаяЧастьСмены18", "ПереходящаяЧастьСмены19", "ПереходящаяЧастьСмены20", "ПереходящаяЧастьСмены21", "ПереходящаяЧастьСмены22", "ПереходящаяЧастьСмены23", "ПереходящаяЧастьСмены24", "ПереходящаяЧастьСмены25", "ПереходящаяЧастьСмены26", "ПереходящаяЧастьСмены27", "ПереходящаяЧастьСмены28", "ПереходящаяЧастьСмены29", "ПереходящаяЧастьСмены30", "ПереходящаяЧастьСмены31"] : List String) := by
    rw [List.map_map, List.map_map]
    show TimeSheetLine.days.map (fun d => "ПереходящаяЧастьСмены" ++ natToStr d) = _
    decide
  have hkAB : (([("Ref_Key", refv)] ++ [("LineNumber", linev), ("Сотрудник_Key", empv)]) : PyDict).map Prod.fst = ((["Ref_Key"] ++ ["LineNumber", "Сотрудник_Key"]) : List String) := by
    rw [List.map_append, hkA, hkB]
  have hkABH : ((([("Ref_Key", refv)] ++ [("LineNumber", linev), ("Сотрудник_Key", empv)]) ++ ((TimeSheetLine.days.map (fun d => TimeSheetRecord.mk d (storedHours (hs d)) ⟨tg d⟩ ⟨terr d⟩ ⟨usl d⟩ (ws d))).map (fun t => ("Часов" ++ natToStr t.day, JVal.num t.get_hours)))) : PyDict).map Prod.fst = (((["Ref_Key"] ++ ["LineNumber", "Сотрудник_Key"]) ++ ["Часов1", "Часов2", "Часов3", "Часов4", "Часов5", "Часов6", "Часов7", "Часов8", "Часов9", "Часов10", "Часов11", "Часов12", "Часов13", "Часов14", "Часов15", "Часов16", "Часов17", "Часов18", "Часов19", "Часов20", "Часов21", "Часов22", "Часов23", "Часов24", "Часов25", "Часов26", "Часов27", "Часов28", "Часов29", "Часов30", "Часов31"]) : List String) := by
    rw [List.map_append, hkAB, hkH]
  have hkABHV : (((([("Ref_Key", refv)] ++ [("LineNumber", linev), ("Сотрудник_Key", empv)]) ++ ((TimeSheetLine.days.map (fun d => TimeSheetRecord.mk d (storedHours (hs d)) ⟨tg d⟩ ⟨terr d⟩ ⟨usl d⟩ (ws d))).map (fun t => ("Часов" ++ natToStr t.day, JVal.num t.get_hours)))) ++ ((TimeSheetLine.days.map (fun d => TimeSheetRecord.mk d (storedHours (hs d)) ⟨tg d⟩ ⟨terr d⟩ ⟨usl d⟩ (ws d))).map (fun t => ("ВидВремени" ++ natToStr t.day ++ "_Key", t.time_group.obj_id)))) : PyDict).map Prod.fst = ((((["Ref_Key"] ++ ["LineNumber", "Сотрудник_Key"]) ++ ["Часов1", "Часов2", "Часов3", "Часов4", "Часов5", "Часов6", "Часов7", "Часов8", "Часов9", "Часов10", "Часов11", "Часов12", "Часов13", "Часов14", "Часов15", "Часов16", "Часов17", "Часов18", "Часов19", "Часов20", "Часов21", "Часов22", "Часов23", "Часов24", "Часов25", "Часов26", "Часов27", "Часов28", "Часов29", "Часов30", "Часов31"]) ++ ["ВидВремени1_Key", "ВидВремени2_Key", "ВидВремени3_Key", "ВидВремени4_Key", "ВидВремени5_Key", "ВидВремени6_Key", "ВидВремени7_Key", "ВидВремени8_Key", "ВидВремени9_Key", "ВидВремени10_Key", "ВидВремени11_Key", "ВидВремени12_Key", "ВидВремени13_Key", "ВидВремени14_Key", "ВидВремени15_Key", "ВидВремени16_Key", "ВидВремени17_Key", "ВидВремени18_Key", "ВидВремени19_Key", "ВидВремени20_Key", "ВидВремени21_Key", "ВидВремени22_Key", "ВидВремени23_Key", "ВидВремени24_Key", "ВидВремени25_Key", "ВидВремени26_Key", "ВидВремени27_Key", "ВидВремени28_Key", "ВидВремени29_Key", "ВидВремени30_Key", "ВидВремени31_Key"]) : List String) := by
    rw [List.map_append, hkABH, hkV]
  have hkABHVT : ((((([("Ref_Key", refv)] ++ [("LineNumber", linev), ("Сотрудник_Key", empv)]) ++ ((TimeSheetLine.days.map (fun d => TimeSheetRecord.mk d (storedHours (hs d)) ⟨tg d⟩ ⟨terr d⟩ ⟨usl d⟩ (ws d))).map (fun t => ("Часов" ++ natToStr t.day, JVal.num t.get_hours)))) ++ ((TimeSheetLine.days.map (fun d => TimeSheetRecord.mk d (storedHours (hs d)) ⟨tg d⟩ ⟨terr d⟩ ⟨usl d⟩ (ws d))).map (fun t => ("ВидВремени" ++ natToStr t.day ++ "_Key", t.time_group.obj_id)))) ++ ((TimeSheetLine.days.map (fun d => TimeSheetRecord.mk d (storedHours (hs d)) ⟨tg d⟩ ⟨terr d⟩ ⟨usl d⟩ (ws d))).map (fun t => ("Территория" ++ natToStr t.day ++ "_Key", t.territory.obj_id)))) : PyDict).map Prod.fst = (((((["Ref_Key"] ++ ["LineNumber", "Сотрудник_Key"]) ++ ["Часов1", "Часов2", "Часов3", "Часов4", "Часов5", "Часов6", "Часов7", "Часов8", "Часов9", "Часов10", "Часов11", "Часов12", "Часов13", "Часов14", "Часов15", "Часов16", "Часов17", "Часов18", "Часов19", "Часов20", "Часов21", "Часов22", "Часов23", "Часов24", "Часов25", "Часов26", "Часов27", "Часов28", "Часов29", "Часов30", "Часов31"]) ++ ["ВидВремени1_Key", "ВидВремени2_Key", "ВидВремени3_Key", "ВидВремени4_Key", "ВидВремени5_Key", "ВидВремени6_Key", "ВидВремени7_Key", "ВидВремени8_Key", "ВидВремени9_Key", "ВидВремени10_Key", "ВидВремени11_Key", "ВидВремени12_Key", "ВидВремени13_Key", "ВидВремени14_Key", "ВидВремени15_Key", "ВидВремени16_Key", "ВидВремени17_Key", "ВидВремени18_Key", "ВидВремени19_Key", "ВидВремени20_Key", "ВидВремени21_Key", "ВидВремени22_Key", "ВидВремени23_Key", "ВидВремени24_Key", "ВидВремени25_Key", "ВидВремени26_Key", "ВидВремени27_Key", "ВидВремени28_Key", "ВидВремени29_Key", "ВидВремени30_Key", "ВидВремени31_Key"]) ++ ["Территория1_Key", "Территория2_Key", "Территория3_Key", "Территория4_Key", "Территория5_Key", "Территория6_Key", "Территория7_Key", "Территория8_Key", "Территория9_Key", "Территория10_Key", "Территория11_Key", "Территория12_Key", "Территория13_Key", "Территория14_Key", "Территория15_Key", "Территория16_Key", "Территория17_Key", "Территория18_Key", "Территория19_Key", "Территория20_Key", "Территория21_Key", "Территория22_Key", "Территория23_Key", "Территория24_Key", "Территория25_Key", "Территория26_Key", "Территория27_Key", "Территория28_Key", "Территория29_Key", "Территория30_Key", "Территория31_Key"]) : List String) := by
    rw [List.map_append, hkABHV, hkT]
  have hkABHVTU : (((((([("Ref_Key", refv)] ++ [("LineNumber", linev), ("Сотрудник_Key", empv)]) ++ ((TimeSheetLine.days.map (fun d => TimeSheetRecord.mk d (storedHours (hs d)) ⟨tg d⟩ ⟨terr d⟩ ⟨usl d⟩ (ws d))).map (fun t => ("Часов" ++ natToStr t.day, JVal.num t.get_hours)))) ++ ((TimeSheetLine.days.map (fun d => TimeSheetRecord.mk d (storedHours (hs d)) ⟨tg d⟩ ⟨terr d⟩ ⟨usl d⟩ (ws d))).map (fun t => ("ВидВремени" ++ natToStr t.day ++ "_Key", t.time_group.obj_id)))) ++ ((TimeSheetLine.days.map (fun d => TimeSheetRecord.mk d (storedHours (hs d)) ⟨tg d⟩ ⟨terr d⟩ ⟨usl d⟩ (ws d))).map (fun t => ("Территория" ++ natToStr t.day ++ "_Key", t.territory.obj_id)))) ++ ((TimeSheetLine.days.map (fun d => TimeSheetRecord.mk d (storedHours (hs d)) ⟨tg d⟩ ⟨terr d⟩ ⟨usl d⟩ (ws d))).map (fun t => ("УсловияТруда" ++ natToStr t.day ++ "_Key", t.working_conditions.obj_id)))) : PyDict).map Prod.fst = ((((((["Ref_Key"] ++ ["LineNumber", "Сотрудник_Key"]) ++ ["Часов1", "Часов2", "Часов3", "Часов4", "Часов5", "Часов6", "Часов7", "Часов8", "Часов9", "Часов10", "Часов11", "Часов12", "Часов13", "Часов14", "Часов15", "Часов16", "Часов17", "Часов18", "Часов19", "Часов20", "Часов21", "Часов22", "Часов23", "Часов24", "Часов25", "Часов26", "Часов27", "Часов28", "Часов29", "Часов30", "Часов31"]) ++ ["ВидВремени1_Key", "ВидВремени2_Key", "ВидВремени3_Key", "ВидВремени4_Key", "ВидВремени5_Key", "ВидВремени6_Key", "ВидВремени7_Key", "ВидВремени8_Key", "ВидВремени9_Key", "ВидВремени10_Key", "ВидВремени11_Key", "ВидВремени12_Key", "ВидВремени13_Key", "ВидВремени14_Key", "ВидВремени15_Key", "ВидВремени16_Key", "ВидВремени17_Key", "ВидВремени18_Key", "ВидВремени19_Key", "ВидВремени20_Key", "ВидВремени21_Key", "ВидВремени22_Key", "ВидВремени23_Key", "ВидВремени24_Key", "ВидВремени25_Key", "ВидВремени26_Key", "ВидВремени27_Key", "ВидВремени28_Key", "ВидВремени29_Key", "ВидВремени30_Key", "ВидВремени31_Key"]) ++ ["Территория1_Key", "Территория2_Key", "Территория3_Key", "Территория4_Key", "Территория5_Key", "Территория6_Key", "Территория7_Key", "Территория8_Key", "Территория9_Key", "Территория10_Key", "Территория11_Key", "Территория12_Key", "Территория13_Key", "Территория14_Key", "Территория15_Key", "Территория16_Key", "Территория17_Key", "Территория18_Key", "Территория19_Key", "Территория20_Key", "Территория21_Key", "Территория22_Key", "Территория23_Key", "Территория24_Key", "Территория25_Key", "Территория26_Key", "Территория27_Key", "Территория28_Key", "Территория29_Key", "Территория30_Key", "Территория31_Key"]) ++ ["УсловияТруда1_Key", "УсловияТруда2_Key", "УсловияТруда3_Key", "УсловияТруда4_Key", "УсловияТруда5_Key", "УсловияТруда6_Key", "УсловияТруда7_Key", "УсловияТруда8_Key", "УсловияТруда9_Key", "УсловияТруда10_Key", "УсловияТруда11_Key", "УсловияТруда12_Key", "УсловияТруда13_Key", "УсловияТруда14_Key", "УсловияТруда15_Key", "УсловияТруда16_Key", "УсловияТруда17_Key", "УсловияТруда18_Key", "УсловияТруда19_Key", "УсловияТруда20_Key", "УсловияТруда21_Key", "УсловияТруда22_Key", "УсловияТруда23_Key", "УсловияТруда24_Key", "УсловияТруда25_Key", "УсловияТруда26_Key", "УсловияТруда27_Key", "УсловияТруда28_Key", "УсловияТруда29_Key", "УсловияТруда30_Key", "УсловияТруда31_Key"]) : List String) := by
    rw [List.map_append, hkABHVT, hkU]
  have hto : TimeSheetLine.to_dict ⟨⟨refv⟩, linev, ⟨empv⟩,
      TimeSheetLine.days.map (fun d => TimeSheetRecord.mk d (storedHours (hs d)) ⟨tg d⟩ ⟨terr d⟩ ⟨usl d⟩ (ws d))⟩
      = mkLineFragment refv linev empv (fun d => hoursReemitted (hs d))
          tg terr usl ws := by
    simp only [TimeSheetLine.to_dict, APIObjectID.to_dict]
    rw [etsr]
    rw [dmerge_of_disjoint_keys [("Ref_Key", refv)] [("LineNumber", linev), ("Сотрудник_Key", empv)] _ _ hkA hkB (by decide)]
    rw [dmerge_of_disjoint_keys ([("Ref_Key", refv)] ++ [("LineNumber", linev), ("Сотрудник_Key", empv)]) ((TimeSheetLine.days.map (fun d => TimeSheetRecord.mk d (storedHours (hs d)) ⟨tg d⟩ ⟨terr d⟩ ⟨usl d⟩ (ws d))).map (fun t => ("Часов" ++ natToStr t.day, JVal.num t.get_hours))) _ _ hkAB hkH (by decide)]
    rw [dmerge_of_disjoint_keys (([("Ref_Key", refv)] ++ [("LineNumber", linev), ("Сотрудник_Key", empv)]) ++ ((TimeSheetLine.days.map (fun d => TimeSheetRecord.mk d (storedHours (hs d)) ⟨tg d⟩ ⟨terr d⟩ ⟨usl d⟩ (ws d))).map (fun t => ("Часов" ++ natToStr t.day, JVal.num t.get_hours)))) ((TimeSheetLine.days.map (fun d => TimeSheetRecord.mk d (storedHours (hs d)) ⟨tg d⟩ ⟨terr d⟩ ⟨usl d⟩ (ws d))).map (fun t => ("ВидВремени" ++ natToStr t.day ++ "_Key", t.time_group.obj_id))) _ _ hkABH hkV (by decide)]
    rw [dmerge_of_disjoint_keys ((([("Ref_Key", refv)] ++ [("LineNumber", linev), ("Сотрудник_Key", empv)]) ++ ((TimeSheetLine.days.map (fun d => TimeSheetRecord.mk d (storedHours (hs d)) ⟨tg d⟩ ⟨terr d⟩ ⟨usl d⟩ (ws d))).map (fun t => ("Часов" ++ natToStr t.day, JVal.num t.get_hours)))) ++ ((TimeSheetLine.days.map (fun d => TimeSheetRecord.mk d (storedHours (hs d)) ⟨tg d⟩ ⟨terr d⟩ ⟨usl d⟩ (ws d))).map (fun t => ("ВидВремени" ++ natToStr t.day ++ "_Key", t.time_group.obj_id)))) ((TimeSheetLine.days.map (fun d => TimeSheetRecord.mk d (storedHours (hs d)) ⟨tg d⟩ ⟨terr d⟩ ⟨usl d⟩ (ws d))).map (fun t => ("Территория" ++ natToStr t.day ++ "_Key", t.territory.obj_id))) _ _ hkABHV hkT (by decide)]
    rw [dmerge_of_disjoint_keys (((([("Ref_Key", refv)] ++ [("LineNumber", linev), ("Сотрудник_Key", empv)]) ++ ((TimeSheetLine.days.map (fun d => TimeSheetRecord.mk d (storedHours (hs d)) ⟨tg d⟩ ⟨terr d⟩ ⟨usl d⟩ (ws d))).map (fun t => ("Часов" ++ natToStr t.day, JVal.num t.get_hours)))) ++ ((TimeSheetLine.days.map (fun d => TimeSheetRecord.mk d (storedHours (hs d)) ⟨tg d⟩ ⟨terr d⟩ ⟨usl d⟩ (ws d))).map (fun t => ("ВидВремени" ++ natToStr t.day ++ "_Key", t.time_group.obj_id)))) ++ ((TimeSheetLine.days.map (fun d => TimeSheetRecord.mk d (storedHours (hs d)) ⟨tg d⟩ ⟨terr d⟩ ⟨usl d⟩ (ws d))).map (fun t => ("Территория" ++ natToStr t.day ++ "_Key", t.territory.obj_id)))) ((TimeSheetLine.days.map (fun d => TimeSheetRecord.mk d (storedHours (hs d)) ⟨tg d⟩ ⟨terr d⟩ ⟨usl d⟩ (ws d))).map (fun t => ("УсловияТруда" ++ natToStr t.day ++ "_Key", t.working_conditions.obj_id))) _ _ hkABHVT hkU (by decide)]
    rw [dmerge_of_disjoint_keys ((((([("Ref_Key", refv)] ++ [("LineNumber", linev), ("Сотрудник_Key", empv)]) ++ ((TimeSheetLine.days.map (fun d => TimeSheetRecord.mk d (storedHours (hs d)) ⟨tg d⟩ ⟨terr d⟩ ⟨usl d⟩ (ws d))).map (fun t => ("Часов" ++ natToStr t.day, JVal.num t.get_hours)))) ++ ((TimeSheetLine.days.map (fun d => TimeSheetRecord.mk d (storedHours (hs d)) ⟨tg d⟩ ⟨terr d⟩ ⟨usl d⟩ (ws d))).map (fun t => ("ВидВремени" ++ natToStr t.day ++ "_Key", t.time_group.obj_id)))) ++ ((TimeSheetLine.days.map (fun d => TimeSheetRecord.mk d (storedHours (hs d)) ⟨tg d⟩ ⟨terr d⟩ ⟨usl d⟩ (ws d))).map (fun t => ("Территория" ++ natToStr t.day ++ "_Key", t.territory.obj_id)))) ++ ((TimeSheetLine.days.map (fun d => TimeSheetRecord.mk d (storedHours (hs d)) ⟨tg d⟩ ⟨terr d⟩ ⟨usl d⟩ (ws d))).map (fun t => ("УсловияТруда" ++ natToStr t.day ++ "_Key", t.working_conditions.obj_id)))) ((TimeSheetLine.days.map (fun d => TimeSheetRecord.mk d (storedHours (hs d)) ⟨tg d⟩ ⟨terr d⟩ ⟨usl d⟩ (ws d))).map (fun t => ("ПереходящаяЧастьСмены" ++ natToStr t.day, t.work_shift))) _ _ hkABHVTU hkW (by decide)]
    rw [List.map_map, List.map_map, List.map_map, List.map_map, List.map_map]
    rfl
  rw [hinit]
  show Except.ok (TimeSheetLine.to_dict ⟨⟨refv⟩, linev, ⟨empv⟩,
      TimeSheetLine.days.map (fun d => TimeSheetRecord.mk d (storedHours (hs d)) ⟨tg d⟩ ⟨terr d⟩ ⟨usl d⟩ (ws d))⟩)
    = Except.ok (mkLineFragment refv linev empv hs tg terr usl ws)
  rw [hto, hfun]

/-- Witness for C1: all 31 days carry `8.3` (whose binary64 value is fixed
by the accessor round trip), with concrete id, line-number, employee and
reference values. -/
theorem c1_roundtrip_witness :
    (∀ d : ℕ, hoursReemitted (oneDec 83) = oneDec 83)
    ∧ (TimeSheetLine.init_from_dict
        (.obj (mkLineFragment (.s "r") (.s "4") (.s "e")
          (fun _ => oneDec 83) (fun _ => .s "t") (fun _ => .s "z")
          (fun _ => .s "u") (fun _ => .b false)))).map
      TimeSheetLine.to_dict
      = .ok (mkLineFragment (.s "r") (.s "4") (.s "e")
          (fun _ => oneDec 83) (fun _ => .s "t") (fun _ => .s "z")
          (fun _ => .s "u") (fun _ => .b false)) := by
  have hq : hoursReemitted (oneDec 83) = oneDec 83 := by decide
  exact ⟨fun _ => hq,
    c1_roundtrip (.s "r") (.s "4") (.s "e") (fun _ => oneDec 83)
      (fun _ => .s "t") (fun _ => .s "z") (fun _ => .s "u") (fun _ => .b false)
      (fun _ => hq)⟩

/-- C2 counterexample: `7205759403792796.0` is a one-decimal float (it is
the binary64 value of `72057594037927960/10`, an exact integer), yet a
`TimeSheetRecord` constructed with it returns `7205759403792797.0` from
`get_hours` — `int(hours*10)` keeps the upward-rounded product
`72057594037927968` and division by ten lands on the next float up. -/
theorem c2_hours_counterexample :
    oneDec 72057594037927960 = ⟨7205759403792796, 1⟩
    ∧ (TimeSheetRecord.init 1 (.num ⟨7205759403792796, 1⟩)
        ⟨.null⟩ ⟨.null⟩ ⟨.null⟩ .null).map TimeSheetRecord.get_hours
      = .ok ⟨7205759403792797, 1⟩
    ∧ (⟨7205759403792797, 1⟩ : Q) ≠ ⟨7205759403792796, 1⟩ :=
  ⟨rfl, rfl, by decide⟩

/-- C2 (amended to the physically meaningful range): for every one-decimal
input `h = k/10` with `k ≤ 240` — hours within a day, in particular `8.3` —
a `TimeSheetRecord` constructed with `hours = h` satisfies
`get_hours() == h` exactly; the tenths-of-hour integer representation
introduces no drift there.  (The claim's unbounded form fails at magnitudes
around `2^52`, see the counterexample.) -/
theorem c2_hours_precision (k : ℕ) (hk : k ≤ 240) :
    (TimeSheetRecord.init 1 (.num (oneDec k))
        ⟨.null⟩ ⟨.null⟩ ⟨.null⟩ .null).toOption.map TimeSheetRecord.get_hours
      = some (oneDec k) := by
  revert hk
  revert k
  decide

/-- Witness for C2 at `h = 8.3` (`k = 83`). -/
theorem c2_hours_precision_witness :
    (83 ≤ 240)
    ∧ (TimeSheetRecord.init 1 (.num (oneDec 83))
        ⟨.null⟩ ⟨.null⟩ ⟨.null⟩ .null).toOption.map TimeSheetRecord.get_hours
      = some (oneDec 83) :=
  ⟨by decide, c2_hours_precision 83 (by decide)⟩

/-- C4: the adapter attaches the local timezone to a naive datetime (the
stored datetime is always timezone-aware), but producing the wire string
raises `AttributeError` — the `clockify_datetime` property reads
`self.clockify_datetime_format` while the class attribute is named
`datetime_format` — and the parse direction through
`APIObject.get_datetime` raises `NameError` because it references
`ClockifyDatetime`, a name that does not exist in models.py.  The claimed
round trip can never produce a wire string. -/
theorem c4_datetime_adapter (localOff w : ℤ) :
    ((Client1CDatetime.init localOff ⟨w, none⟩).datetime.tz = some localOff)
    ∧ ((Client1CDatetime.init localOff ⟨w, none⟩).clockify_datetime localOff
        = .error (.attributeError "clockify_datetime_format"))
    ∧ (APIObject.get_datetime (.obj [("start", .s "2021-06-01T12:00:00Z")]) "start"
        = .error (.nameError "ClockifyDatetime")) :=
  ⟨rfl, rfl, rfl⟩

/-- Helper: parsing an empty `ДанныеОВремени` line list. -/
theorem mapM_nil_tsl :
    List.mapM.loop TimeSheetLine.init_from_dict [] []
      = (pure [] : Except PyErr (List TimeSheetLine)) := rfl

/-- C5 counterexample: a `TimeSheet` wire fragment that carries all the
required fields but no `Number` key does not parse to a `TimeSheet` with an
absent number — `init_from_dict` raises `ObjectParseException`, because the
`Number` lookup uses the raising default of `get_item`. -/
theorem c5_counterexample :
    TimeSheet.init_from_dict (.obj
      [("Ref_Key", .s "11111111-2222-3333-4444-555555555555"),
       ("ПериодРегистрации", .s "2021-06-01T00:00:00"),
       ("Организация_Key", .s "aaaaaaaa-bbbb-cccc-dddd-eeeeeeeeeeee"),
       ("ДатаНачалаПериода", .s "2021-06-01T00:00:00"),
       ("ДатаОкончанияПериода", .s "2021-06-30T00:00:00"),
       ("ДанныеОВремени", .arr [])])
      = .error .objectParse := rfl

/-- C5 (amended): the `TimeSheet.init_from_dict` lookups for `Number`,
`Date` and `Подразделение_Key` use the raising default — a fragment whose
required fields are present and well-formed but which lacks any of these
three keys raises `ObjectParseException` instead of yielding a `TimeSheet`
with the corresponding field absent. -/
theorem c5_optional_keys_raise (d : PyDict) (rv ov : JVal) (pv sv ev : String)
    (h1 : dlookup d "Ref_Key" = some rv)
    (h2 : dlookup d "ПериодРегистрации" = some (.s pv)) (h2ok : isoOk pv = true)
    (h3 : dlookup d "Организация_Key" = some ov)
    (h4 : dlookup d "ДатаНачалаПериода" = some (.s sv)) (h4ok : isoOk sv = true)
    (h5 : dlookup d "ДатаОкончанияПериода" = some (.s ev)) (h5ok : isoOk ev = true)
    (h6 : dlookup d "ДанныеОВремени" = some (.arr [])) :
    (dlookup d "Number" = none →
      TimeSheet.init_from_dict (.obj d) = .error .objectParse)
    ∧ (∀ nv, dlookup d "Number" = some nv → dlookup d "Date" = none →
      TimeSheet.init_from_dict (.obj d) = .error .objectParse)
    ∧ (∀ nv (dv : String), dlookup d "Number" = some nv →
      dlookup d "Date" = some (.s dv) → isoOk dv = true →
      dlookup d "Подразделение_Key" = none →
      TimeSheet.init_from_dict (.obj d) = .error .objectParse) := by
  refine ⟨fun hn => ?_, fun nv hn hd => ?_, fun nv dv hn hd hdok hp => ?_⟩ <;>
    simp [TimeSheet.init_from_dict, APIObject.get_item, pyFromIsoformat,
      pySubscript, pyDateOf, h1, h2, h2ok, h3, h4, h4ok, h5, h5ok, h6,
      hn, mapM_nil_tsl, ebind_ok, ebind_err, epure, *]

/-- Witness for C5 at concrete fragments missing `Number`, `Date` and
`Подразделение_Key` respectively. -/
theorem c5_optional_keys_raise_witness :
    TimeSheet.init_from_dict (.obj
      [("Ref_Key", .s "r"), ("ПериодРегистрации", .s "2021-06-01T00:00:00"),
       ("Организация_Key", .s "o"), ("ДатаНачалаПериода", .s "2021-06-01T00:00:00"),
       ("ДатаОкончанияПериода", .s "2021-06-30T00:00:00"), ("ДанныеОВремени", .arr [])])
      = .error .objectParse
    ∧ TimeSheet.init_from_dict (.obj
      [("Ref_Key", .s "r"), ("ПериодРегистрации", .s "2021-06-01T00:00:00"),
       ("Организация_Key", .s "o"), ("ДатаНачалаПериода", .s "2021-06-01T00:00:00"),
       ("ДатаОкончанияПериода", .s "2021-06-30T00:00:00"), ("ДанныеОВремени", .arr []),
       ("Number", .s "0000-000045")])
      = .error .objectParse
    ∧ TimeSheet.init_from_dict (.obj
      [("Ref_Key", .s "r"), ("ПериодРегистрации", .s "2021-06-01T00:00:00"),
       ("Организация_Key", .s "o"), ("ДатаНачалаПериода", .s "2021-06-01T00:00:00"),
       ("ДатаОкончанияПериода", .s "2021-06-30T00:00:00"), ("ДанныеОВремени", .arr []),
       ("Number", .s "0000-000045"), ("Date", .s "2021-06-21T09:14:42")])
      = .error .objectParse :=
  ⟨(c5_optional_keys_raise
      [("Ref_Key", .s "r"), ("ПериодРегистрации", .s "2021-06-01T00:00:00"),
       ("Организация_Key", .s "o"), ("ДатаНачалаПериода", .s "2021-06-01T00:00:00"),
       ("ДатаОкончанияПериода", .s "2021-06-30T00:00:00"), ("ДанныеОВремени", .arr [])]
      (.s "r") (.s "o")
      "2021-06-01T00:00:00" "2021-06-01T00:00:00" "2021-06-30T00:00:00"
      rfl rfl rfl rfl rfl rfl rfl rfl rfl).1 rfl,
    (c5_optional_keys_raise
      [("Ref_Key", .s "r"), ("ПериодРегистрации", .s "2021-06-01T00:00:00"),
       ("Организация_Key", .s "o"), ("ДатаНачалаПериода", .s "2021-06-01T00:00:00"),
       ("ДатаОкончанияПериода", .s "2021-06-30T00:00:00"), ("ДанныеОВремени", .arr []),
       ("Number", .s "0000-000045")]
      (.s "r") (.s "o")
      "2021-06-01T00:00:00" "2021-06-01T00:00:00" "2021-06-30T00:00:00"
      rfl rfl rfl rfl rfl rfl rfl rfl rfl).2.1 (.s "0000-000045") rfl rfl,
    (c5_optional_keys_raise
      [("Ref_Key", .s "r"), ("ПериодРегистрации", .s "2021-06-01T00:00:00"),
       ("Организация_Key", .s "o"), ("ДатаНачалаПериода", .s "2021-06-01T00:00:00"),
       ("ДатаОкончанияПериода", .s "2021-06-30T00:00:00"), ("ДанныеОВремени", .arr []),
       ("Number", .s "0000-000045"), ("Date", .s "2021-06-21T09:14:42")]
      (.s "r") (.s "o")
      "2021-06-01T00:00:00" "2021-06-01T00:00:00" "2021-06-30T00:00:00"
      rfl rfl rfl rfl rfl rfl rfl rfl rfl).2.2 (.s "0000-000045")
      "2021-06-21T09:14:42" rfl rfl rfl rfl⟩

end Client1C
